import Mathlib

/-!
# Robotest infrastructure lifecycle: `infra/gravity/terraform.go`

A shallow embedding of the provisioning / teardown / resource-accounting code
of `infra/gravity/terraform.go`:

* `resourceAllocated`, `resourceDestroyed`, `saveResourceAllocations`
  (the ledger of allocated resource tags and its backing file),
* `wrapDestroyFn` (the conditional teardown closure),
* `runTerraform` (the bounded retry loop around the provisioner).

Modelling conventions.

* Go's `error` is `Option Error` (`none` is `nil`).
* Time is a natural number of nanoseconds, as in `time.Duration`.  The clock
  advances only inside calls to collaborators (provisioner, log collector).
* A `context.Context` is a term (`Context`) recording how it was derived; whether it
  is done is decided from the clock and from the moment the caller's context is
  cancelled or times out.
* The map `resourceAllocations.tags` only ever stores the value `true`; it is
  represented by the list of its keys.
* Calls that leave the function under study are recorded in a trace of `Event`s.
* The ledger file is a list of bytes (natural numbers below 256); a tag is written
  as the bytes of its UTF-8 encoding followed by the newline byte 10.
* Logging calls have no effect on control flow and are left out.
-/

namespace Robotest

/-! ## Errors (package `context`, `github.com/gravitational/trace`) -/

/-- The two errors a done context reports: `context.Canceled` and
`context.DeadlineExceeded`. -/
inductive CtxError
  | canceled
  | deadlineExceeded
  deriving DecidableEq, Repr

/-- Error values that occur in `terraform.go`. -/
inductive Error
  /-- An error reported by `ctx.Err()`. -/
  | context (e : CtxError)
  /-- An error value produced by a collaborator (provisioner, log collector, `os`). -/
  | external (code : Nat)
  /-- The value of `trace.Errorf("resource tag not unique : %s", tag)`. -/
  | notUnique (tag : String)
  /-- The value of `trace.Errorf("[terraform interrupted on apply due to upper context=%v,
  result=%v]", ctx.Err(), err)`. -/
  | interrupted (ctxErr : CtxError) (result : Option Error)
  /-- The value of `trace.Wrap(e)` for a non-nil `e`. -/
  | wrap (e : Error)
  /-- The value of `trace.ConvertSystemError(e)` for a non-nil `e`. -/
  | system (e : Error)
  /-- The value of `trace.NewAggregate` on the listed non-nil errors. -/
  | aggregate (errs : List Error)
  deriving Repr

namespace trace

/-- The function `trace.Wrap`: nil stays nil, any other error is wrapped. -/
def Wrap (err : Option Error) : Option Error :=
  err.map Error.wrap

/-- The function `trace.ConvertSystemError`, used on errors of package `os`. -/
def ConvertSystemError (err : Option Error) : Option Error :=
  err.map Error.system

/-- The function `trace.NewAggregate`: nil arguments are filtered out, and the
result is nil when nothing is left. -/
def NewAggregate (errs : List (Option Error)) : Option Error :=
  match errs.filterMap id with
  | [] => none
  | nonNils => some (Error.aggregate nonNils)

end trace

/-! ## Contexts and time -/

/-- One second, one minute (`time.Second`, `time.Minute`), in nanoseconds. -/
def Second : Nat := 1000000000

/-- The duration `time.Minute`. -/
def Minute : Nat := 60 * Second

/-- The constant `finalTeardownTimeout = time.Minute * 5`. -/
def finalTeardownTimeout : Nat := Minute * 5

/-- A context, by the way it was built.  `base` is the context handed in by the caller:
`baseContext` in `runTerraform`, `c.Context()` in `wrapDestroyFn`. -/
inductive Context
  | background
  | base
  | deadline (parent : Context) (expiry : Nat)
  deriving DecidableEq, Repr

namespace Context

/-- The call `context.WithTimeout(parent, timeout)` made when the clock shows `now`. -/
def WithTimeout (now : Nat) (parent : Context) (timeout : Nat) : Context :=
  .deadline parent (now + timeout)

/-- The moment a context becomes done and the error it then reports; `baseDone` is
that moment for the caller's context (`none`: it is never cancelled). A child is done
as soon as its parent is, or when its own deadline passes. -/
def doneAt (baseDone : Option (Nat × CtxError)) : Context → Option (Nat × CtxError)
  | .background => none
  | .base => baseDone
  | .deadline parent expiry =>
    match doneAt baseDone parent with
    | some (t, e) => if t ≤ expiry then some (t, e) else some (expiry, .deadlineExceeded)
    | none => some (expiry, .deadlineExceeded)

/-- The method `ctx.Err()` read when the clock shows `now`. -/
def Err (baseDone : Option (Nat × CtxError)) (ctx : Context) (now : Nat) : Option CtxError :=
  match doneAt baseDone ctx with
  | some (t, e) => if t ≤ now then some e else none
  | none => none

/-- Whether a context is `background` itself or derived from it only. -/
def fromBackground : Context → Bool
  | .background => true
  | .base => false
  | .deadline parent _ => fromBackground parent

end Context

/-! ## Policy -/

/-- The struct `ProvisionerPolicy`. -/
structure ProvisionerPolicy where
  /-- DestroyOnSuccess instructs to remove any cloud resources after test completed OK -/
  DestroyOnSuccess : Bool
  /-- DestroyOnFailure instructs to cleanup any cloud resources after test completed with
  failure or context was timed out or interrupted -/
  DestroyOnFailure : Bool
  /-- AlwaysCollectLogs requests to fetch logs also from VMs where tests completed OK -/
  AlwaysCollectLogs : Bool
  /-- ResourceListFile keeps record of allocated and not cleaned up resources -/
  ResourceListFile : String
  deriving DecidableEq, Repr

/-! ## The resource ledger and its file -/

/-- The order in which a `for ... range` over the map visits the keys: some
permutation of them, chosen by the runtime. -/
structure RangeOrder where
  keys : List String → List String
  perm : ∀ l, (keys l).Perm l

/-- The order that visits the keys as stored. -/
def RangeOrder.stored : RangeOrder := ⟨id, fun l => List.Perm.refl l⟩

/-- What the operating system does to one call of `saveResourceAllocations`. -/
inductive DiskFault
  /-- Every call succeeds. -/
  | ok
  /-- The call `os.OpenFile` returns the error. -/
  | openFails (e : Error)
  /-- The `k`-th `fmt.Fprintln` (counted from 0) returns the error and writes nothing. -/
  | writeFails (k : Nat) (e : Error)
  deriving Repr

/-- The environment of one ledger operation. -/
structure DiskEnv where
  fault : DiskFault
  order : RangeOrder

/-- The environment without faults, visiting the keys as stored. -/
def DiskEnv.good : DiskEnv := ⟨.ok, RangeOrder.stored⟩

/-- The bytes of one character in UTF-8. -/
def utf8Bytes (c : Char) : List Nat :=
  if c.toNat < 128 then [c.toNat]
  else if c.toNat < 2048 then [192 + c.toNat / 64, 128 + c.toNat % 64]
  else if c.toNat < 65536 then
    [224 + c.toNat / 4096, 128 + c.toNat / 64 % 64, 128 + c.toNat % 64]
  else
    [240 + c.toNat / 262144, 128 + c.toNat / 4096 % 64, 128 + c.toNat / 64 % 64,
      128 + c.toNat % 64]

/-- The bytes of a string, as `fmt.Fprintln` writes them. -/
def stringBytes (s : String) : List Nat :=
  (s.data.map utf8Bytes).flatten

/-- The newline byte that `fmt.Fprintln` appends. -/
def newline : Nat := 10

/-- The variable `resourceAllocations` together with the bytes of the file named by
`policy.ResourceListFile` (`none`: the file does not exist). -/
structure Ledger where
  tags : List String
  file : Option (List Nat)
  deriving DecidableEq, Repr

/-- Writing `data` into a file at offset `pos`: bytes already there are overwritten,
bytes after the written range stay. -/
def writeAt (content : List Nat) (pos : Nat) (data : List Nat) : List Nat :=
  content.take pos ++ data ++ content.drop (pos + data.length)

/-- The loop `for res := range tags { fmt.Fprintln(file, res) }` on an open file:
`k` counts the calls made so far and `pos` is the file offset, in bytes. -/
def fprintlnAll (fault : DiskFault) :
    List String → Nat → List Nat → Nat → List Nat × Option Error
  | [], _, content, _ => (content, none)
  | res :: rest, k, content, pos =>
    match fault with
    | .writeFails j e =>
      if j = k then (content, trace.ConvertSystemError (some e))
      else
        let line := stringBytes res ++ [newline]
        fprintlnAll fault rest (k + 1) (writeAt content pos line) (pos + line.length)
    | _ =>
      let line := stringBytes res ++ [newline]
      fprintlnAll fault rest (k + 1) (writeAt content pos line) (pos + line.length)

/-- The function `saveResourceAllocations`.  The file is opened with
`os.O_RDWR|os.O_CREATE`: it is created empty when missing, it is not truncated, and
writing starts at offset 0. -/
def saveResourceAllocations (policy : ProvisionerPolicy) (d : DiskEnv) (l : Ledger) :
    Ledger × Option Error :=
  if policy.ResourceListFile = "" then (l, none)
  else
    match d.fault with
    | .openFails e => (l, trace.ConvertSystemError (some e))
    | fault =>
      let opened := l.file.getD []
      let (content, err) := fprintlnAll fault (d.order.keys l.tags) 0 opened 0
      ({ l with file := some content }, err)

/-- The function `resourceAllocated`. -/
def resourceAllocated (policy : ProvisionerPolicy) (d : DiskEnv) (tag : String) (l : Ledger) :
    Ledger × Option Error :=
  if tag ∈ l.tags then (l, some (Error.notUnique tag))
  else saveResourceAllocations policy d { l with tags := l.tags ++ [tag] }

/-- The function `resourceDestroyed`. -/
def resourceDestroyed (policy : ProvisionerPolicy) (d : DiskEnv) (tag : String) (l : Ledger) :
    Ledger × Option Error :=
  saveResourceAllocations policy d { l with tags := l.tags.filter (fun t => t ≠ tag) }

/-- Reading a file back line by line: `cur` holds the bytes of the line being read,
last first.  A last line without a newline counts when it is not empty. -/
def readLines : List Nat → List Nat → List (List Nat)
  | [], [] => []
  | [], cur => [cur.reverse]
  | b :: rest, cur =>
    if b = newline then cur.reverse :: readLines rest []
    else readLines rest (b :: cur)

/-- The lines of the ledger file, each the bytes of one tag (none when there is no
file): the tag `t` is in the file when `stringBytes t` is among them. -/
def Ledger.fileTags (l : Ledger) : List (List Nat) :=
  readLines (l.file.getD []) []

/-- A call of one of the two ledger operations. -/
inductive LedgerOp
  | allocated (tag : String)
  | destroyed (tag : String)
  deriving DecidableEq, Repr

/-- One ledger operation in its environment. -/
def LedgerOp.run (policy : ProvisionerPolicy) (d : DiskEnv) : LedgerOp → Ledger → Ledger × Option Error
  | .allocated tag, l => resourceAllocated policy d tag l
  | .destroyed tag, l => resourceDestroyed policy d tag l

/-- A sequence of ledger operations, each in its own environment; the mutex of
`resourceAllocations` makes the calls take place one after the other. -/
def runOps (policy : ProvisionerPolicy) : List (LedgerOp × DiskEnv) → Ledger → Ledger
  | [], l => l
  | (op, d) :: rest, l => runOps policy rest (op.run policy d l).1

/-! ## Calls into collaborators -/

/-- A provisioned machine, named by its address. -/
abbrev Node := String

/-- How a call ends: it returns an `error`, or it panics. -/
inductive CallOutcome
  | returned (err : Option Error)
  | panicked
  deriving Repr

/-- Calls that leave the code under study, each with the way it ended, in the order
they are made. -/
inductive Event
  /-- The call `p.Create(ctx, false)` and the error it returned. -/
  | create (ctx : Context) (err : Option Error)
  /-- The call `p.Destroy(ctx)`, or `destroy(ctx)` in the teardown closure. -/
  | destroy (ctx : Context) (out : CallOutcome)
  /-- The call `c.CollectLogs(label, nodes)`. -/
  | collectLogs (label : String) (nodes : List Node) (out : CallOutcome)
  /-- The call `resourceAllocated(tag)` and the error it returned. -/
  | resourceAllocated (tag : String) (err : Option Error)
  /-- The call `resourceDestroyed(tag)` and the error it returned. -/
  | resourceDestroyed (tag : String) (err : Option Error)
  deriving Repr

/-- The mutable world: the clock, the ledger and the calls made so far. -/
structure World where
  now : Nat
  ledger : Ledger
  calls : List Event
  deriving Repr

/-- The world after a call that took `elapsed` nanoseconds. -/
def World.after (w : World) (ev : Event) (elapsed : Nat) : World :=
  { w with now := w.now + elapsed, calls := w.calls ++ [ev] }

/-- The calls made since the world was `w0`. -/
def World.since (w w0 : World) : List Event :=
  w.calls.drop w0.calls.length

/-- Whether an event is a call of destroy. -/
def Event.isDestroy : Event → Bool
  | .destroy _ _ => true
  | _ => false

/-- Whether an event is a call of `Create`. -/
def Event.isCreate : Event → Bool
  | .create _ _ => true
  | _ => false

/-- Whether an event is a call of `CollectLogs`. -/
def Event.isCollectLogs : Event → Bool
  | .collectLogs _ _ _ => true
  | _ => false

/-- How often destroy was called. -/
def destroyCount (calls : List Event) : Nat :=
  calls.countP Event.isDestroy

/-- How often `Create` was called. -/
def createCount (calls : List Event) : Nat :=
  calls.countP Event.isCreate

/-- How often `CollectLogs` was called. -/
def collectLogsCount (calls : List Event) : Nat :=
  calls.countP Event.isCollectLogs

/-- Whether an event is a call of `resourceAllocated`. -/
def Event.isResourceAllocated : Event → Bool
  | .resourceAllocated _ _ => true
  | _ => false

/-- Whether an event is a call of `resourceDestroyed`. -/
def Event.isResourceDestroyed : Event → Bool
  | .resourceDestroyed _ _ => true
  | _ => false

/-- Whether an event is a call that panicked. -/
def Event.isPanic : Event → Bool
  | .destroy _ .panicked => true
  | .collectLogs _ _ .panicked => true
  | _ => false

/-- How often `resourceAllocated` was called. -/
def resourceAllocatedCount (calls : List Event) : Nat :=
  calls.countP Event.isResourceAllocated

/-- How often `resourceDestroyed` was called. -/
def resourceDestroyedCount (calls : List Event) : Nat :=
  calls.countP Event.isResourceDestroyed

/-! ## The teardown closure -/

/-- What `wrapDestroyFn` reads from its `*TestContext`: `c.t.Failed()`, the moment
`c.Context()` is cancelled or times out, and `c.CollectLogs`, which, called with a
label and nodes when the clock shows `now`, takes some time and returns or panics. -/
structure TestContext where
  Failed : Bool
  ctxDone : Option (Nat × CtxError)
  CollectLogs : String → List Node → Nat → Nat × CallOutcome

/-- The block `if !skipLogCollection && (c.t.Failed() || policy.AlwaysCollectLogs) { ... }`
of the closure.  The error `CollectLogs` returns is only logged.  The flag tells
whether the block ran to its end (`false`: `CollectLogs` panicked). -/
def collectLogsBlock (policy : ProvisionerPolicy) (c : TestContext) (nodes : List Node)
    (skipLogCollection : Bool) (w : World) : World × Bool :=
  if !skipLogCollection ∧ (c.Failed ∨ policy.AlwaysCollectLogs) then
    let r := c.CollectLogs "postmortem" nodes w.now
    match r.2 with
    | .returned err => (w.after (.collectLogs "postmortem" nodes (.returned err)) r.1, true)
    | .panicked => (w.after (.collectLogs "postmortem" nodes .panicked) r.1, false)
  else (w, true)

/-- The rest of the closure, from `if (policy.DestroyOnSuccess == false) || ...` to
`return trace.Wrap(err)`, entered with the context `ctx`.  The error that
`resourceDestroyed` returns is dropped. -/
def destroyBlock (policy : ProvisionerPolicy) (c : TestContext) (tag : String)
    (destroy : Context → Nat → Nat × CallOutcome) (d : DiskEnv) (ctx : Context)
    (w : World) : World × CallOutcome :=
  if policy.DestroyOnSuccess = false ∨ (c.Failed ∧ policy.DestroyOnFailure = false) then
    (w, .returned none)
  else
    let r := destroy ctx w.now
    let w2 := w.after (.destroy ctx r.2) r.1
    match r.2 with
    | .panicked => (w2, .panicked)
    | .returned (some err) => (w2, .returned (trace.Wrap (some err)))
    | .returned none =>
      let saved := resourceDestroyed policy d tag w2.ledger
      ({ w2 with ledger := saved.1, calls := w2.calls ++ [.resourceDestroyed tag saved.2] },
        .returned (trace.Wrap none))

/-- The body of the closure returned by `wrapDestroyFn`, before the deferred `recover`.
`destroy ctx now` is the provisioner's destroy called with `ctx` at time `now`. -/
def wrapDestroyFnBody (policy : ProvisionerPolicy) (c : TestContext) (tag : String)
    (nodes : List Node) (destroy : Context → Nat → Nat × CallOutcome)
    (d : DiskEnv) (w : World) : World × CallOutcome :=
  let ctxErr := Context.Err c.ctxDone .base w.now
  if ctxErr.isSome ∧ policy.DestroyOnFailure = false then
    (w, .returned (trace.Wrap (ctxErr.map Error.context)))
  else
    let skipLogCollection := ctxErr.isSome
    let ctx := if ctxErr.isSome then Context.WithTimeout w.now .background finalTeardownTimeout
      else Context.base
    match collectLogsBlock policy c nodes skipLogCollection w with
    | (w1, false) => (w1, .panicked)
    | (w1, true) => destroyBlock policy c tag destroy d ctx w1

/-- The deferred `func() { if r := recover(); r != nil { ... } }()` of the closure,
applied to what the body did: a panic is logged, and the closure then returns the
zero value of its unnamed result, nil. -/
def recovered : World × CallOutcome → World × CallOutcome
  | (w1, .panicked) => (w1, .returned none)
  | (w1, .returned err) => (w1, .returned err)

/-- The closure returned by `wrapDestroyFn`: the body under the deferred `recover`. -/
def wrapDestroyFn (policy : ProvisionerPolicy) (c : TestContext) (tag : String)
    (nodes : List Node) (destroy : Context → Nat → Nat × CallOutcome)
    (d : DiskEnv) (w : World) : World × CallOutcome :=
  recovered (wrapDestroyFnBody policy c tag nodes destroy d w)

/-! ## The provisioning loop -/

/-- The terraform provisioner `p`, as `runTerraform` uses it.  `Create i ctx now` is
the `i`-th call of `p.Create(ctx, false)`, made at time `now`: it takes some time and
returns an error or nil.  `Destroy ctx now` likewise.  `Nodes` is
`p.NodePool().Nodes()`. -/
structure Provisioner where
  Create : Nat → Context → Nat → Nat × Option Error
  Destroy : Context → Nat → Nat × Option Error
  Nodes : List Node

/-- The surroundings of one run of `runTerraform`: the result of `terraform.New`,
the moment `baseContext` is cancelled or times out, and the disk. -/
structure TerraformEnv where
  New : Except Error Provisioner
  baseDone : Option (Nat × CtxError)
  disk : DiskEnv

/-- The three results of `runTerraform`. -/
structure TerraformResult where
  nodes : Option (List Node)
  destroy : Option (Context → Nat → Nat × Option Error)
  err : Option Error

/-- The thresholds `[]time.Duration{time.Minute * 15, time.Minute * 10}`. -/
def thresholds : List Nat := [Minute * 15, Minute * 10]

/-- The `for _, threshold := range ...` loop of `runTerraform` over the thresholds
still to try, followed by the statement after the loop.  `i` counts the calls of
`Create` made so far and `err` is the variable `err`. -/
def runTerraformLoop (policy : ProvisionerPolicy) (env : TerraformEnv) (p : Provisioner)
    (tag : String) : List Nat → Nat → Option Error → World → World × TerraformResult
  | [], _, err, w =>
    let r := p.Destroy .base w.now
    (w.after (.destroy .base (.returned r.2)) r.1, ⟨none, none, trace.NewAggregate [err, r.2]⟩)
  | threshold :: rest, i, _, w =>
    let ctx := Context.WithTimeout w.now .base threshold
    let r := p.Create i ctx w.now
    let w1 := w.after (.create ctx r.2) r.1
    match Context.Err env.baseDone ctx w1.now with
    | some ctxErr =>
      let teardownCtx := Context.WithTimeout w1.now .background finalTeardownTimeout
      let err1 := Error.interrupted ctxErr r.2
      let r2 := p.Destroy teardownCtx w1.now
      let err2 := trace.Wrap r2.2
      (w1.after (.destroy teardownCtx (.returned r2.2)) r2.1,
        ⟨none, none, trace.NewAggregate [some err1, err2]⟩)
    | none =>
      match r.2 with
      | some err => runTerraformLoop policy env p tag rest (i + 1) (some err) w1
      | none =>
        let saved := resourceAllocated policy env.disk tag w1.ledger
        ({ w1 with ledger := saved.1, calls := w1.calls ++ [.resourceAllocated tag saved.2] },
          ⟨some p.Nodes, some p.Destroy, none⟩)

/-- The function `runTerraform`; `tag` is `baseConfig.Tag()`. -/
def runTerraform (policy : ProvisionerPolicy) (env : TerraformEnv) (tag : String)
    (w : World) : World × TerraformResult :=
  match env.New with
  | .error err => (w, ⟨none, none, trace.Wrap (some err)⟩)
  | .ok p => runTerraformLoop policy env p tag thresholds 0 none w

/-! ## Auxiliary facts -/

theorem World.since_self (w : World) : w.since w = [] := by
  simp [World.since]

theorem World.since_calls (w w1 : World) (l : List Event) (h : w1.calls = w.calls ++ l) :
    w1.since w = l := by
  simp [World.since, h]

/-! ## The teardown closure: interrupted runs -/

/-- C6: when the run context is cancelled or expired (`ctx.Err()` is some `e`) and
`DestroyOnFailure` is false, then whatever the test outcome, `DestroyOnSuccess` and
`AlwaysCollectLogs` are, the closure makes no call at all (no log collection, no
destroy), leaves the world and with it the ledger as they were, and returns
`trace.Wrap(ctx.Err())`. -/
theorem wrapDestroyFn_interrupted_keeps (policy : ProvisionerPolicy) (c : TestContext)
    (tag : String) (nodes : List Node) (destroy : Context → Nat → Nat × CallOutcome)
    (d : DiskEnv) (w : World) (e : CtxError)
    (hctx : Context.Err c.ctxDone .base w.now = some e)
    (hpol : policy.DestroyOnFailure = false) :
    (wrapDestroyFn policy c tag nodes destroy d w).1 = w ∧
    collectLogsCount ((wrapDestroyFn policy c tag nodes destroy d w).1.since w) = 0 ∧
    destroyCount ((wrapDestroyFn policy c tag nodes destroy d w).1.since w) = 0 ∧
    (wrapDestroyFn policy c tag nodes destroy d w).1.ledger = w.ledger ∧
    (wrapDestroyFn policy c tag nodes destroy d w).2
      = .returned (trace.Wrap (some (Error.context e))) := by
  have h : wrapDestroyFn policy c tag nodes destroy d w
      = (w, .returned (trace.Wrap (some (Error.context e)))) := by
    simp [wrapDestroyFn, wrapDestroyFnBody, recovered, hctx, hpol]
  rw [h]
  simp [World.since_self, collectLogsCount, destroyCount]

/-- C6, at an interrupted run that failed, with `DestroyOnSuccess` and
`AlwaysCollectLogs` set. -/
theorem wrapDestroyFn_interrupted_keeps_witness :
    (wrapDestroyFn ⟨true, false, true, "tags.txt"⟩
        ⟨true, some (3, .canceled), fun _ _ _ => (1, .returned none)⟩ "t1" ["n1"]
        (fun _ _ => (1, .returned none)) DiskEnv.good ⟨5, ⟨["t1"], none⟩, []⟩).1
      = ⟨5, ⟨["t1"], none⟩, []⟩ ∧
    collectLogsCount ((wrapDestroyFn ⟨true, false, true, "tags.txt"⟩
        ⟨true, some (3, .canceled), fun _ _ _ => (1, .returned none)⟩ "t1" ["n1"]
        (fun _ _ => (1, .returned none)) DiskEnv.good ⟨5, ⟨["t1"], none⟩, []⟩).1.since
          ⟨5, ⟨["t1"], none⟩, []⟩) = 0 ∧
    destroyCount ((wrapDestroyFn ⟨true, false, true, "tags.txt"⟩
        ⟨true, some (3, .canceled), fun _ _ _ => (1, .returned none)⟩ "t1" ["n1"]
        (fun _ _ => (1, .returned none)) DiskEnv.good ⟨5, ⟨["t1"], none⟩, []⟩).1.since
          ⟨5, ⟨["t1"], none⟩, []⟩) = 0 ∧
    (wrapDestroyFn ⟨true, false, true, "tags.txt"⟩
        ⟨true, some (3, .canceled), fun _ _ _ => (1, .returned none)⟩ "t1" ["n1"]
        (fun _ _ => (1, .returned none)) DiskEnv.good ⟨5, ⟨["t1"], none⟩, []⟩).1.ledger
      = ⟨["t1"], none⟩ ∧
    (wrapDestroyFn ⟨true, false, true, "tags.txt"⟩
        ⟨true, some (3, .canceled), fun _ _ _ => (1, .returned none)⟩ "t1" ["n1"]
        (fun _ _ => (1, .returned none)) DiskEnv.good ⟨5, ⟨["t1"], none⟩, []⟩).2
      = .returned (trace.Wrap (some (Error.context .canceled))) :=
  wrapDestroyFn_interrupted_keeps ⟨true, false, true, "tags.txt"⟩
    ⟨true, some (3, .canceled), fun _ _ _ => (1, .returned none)⟩ "t1" ["n1"]
    (fun _ _ => (1, .returned none)) DiskEnv.good ⟨5, ⟨["t1"], none⟩, []⟩ .canceled
    (by decide) rfl

/-! ## The blocks of the teardown closure -/

/-- The gate in front of destroy: `(policy.DestroyOnSuccess == false) ||
(c.t.Failed() && policy.DestroyOnFailure == false)`. -/
theorem destroyBlock_closed (policy : ProvisionerPolicy) (c : TestContext) (tag : String)
    (destroy : Context → Nat → Nat × CallOutcome) (d : DiskEnv) (ctx : Context) (w : World)
    (h : policy.DestroyOnSuccess = false ∨ (c.Failed = true ∧ policy.DestroyOnFailure = false)) :
    destroyBlock policy c tag destroy d ctx w = (w, .returned none) := by
  simp [destroyBlock, h]

theorem destroyBlock_panicked (policy : ProvisionerPolicy) (c : TestContext) (tag : String)
    (destroy : Context → Nat → Nat × CallOutcome) (d : DiskEnv) (ctx : Context) (w : World)
    (h : ¬ (policy.DestroyOnSuccess = false ∨ (c.Failed = true ∧ policy.DestroyOnFailure = false)))
    (dt : Nat) (hd : destroy ctx w.now = (dt, .panicked)) :
    destroyBlock policy c tag destroy d ctx w
      = (w.after (.destroy ctx .panicked) dt, .panicked) := by
  simp [destroyBlock, h, hd]

theorem destroyBlock_failed (policy : ProvisionerPolicy) (c : TestContext) (tag : String)
    (destroy : Context → Nat → Nat × CallOutcome) (d : DiskEnv) (ctx : Context) (w : World)
    (h : ¬ (policy.DestroyOnSuccess = false ∨ (c.Failed = true ∧ policy.DestroyOnFailure = false)))
    (dt : Nat) (e : Error) (hd : destroy ctx w.now = (dt, .returned (some e))) :
    destroyBlock policy c tag destroy d ctx w
      = (w.after (.destroy ctx (.returned (some e))) dt, .returned (some (Error.wrap e))) := by
  simp [destroyBlock, h, hd, trace.Wrap]

theorem destroyBlock_done (policy : ProvisionerPolicy) (c : TestContext) (tag : String)
    (destroy : Context → Nat → Nat × CallOutcome) (d : DiskEnv) (ctx : Context) (w : World)
    (h : ¬ (policy.DestroyOnSuccess = false ∨ (c.Failed = true ∧ policy.DestroyOnFailure = false)))
    (dt : Nat) (hd : destroy ctx w.now = (dt, .returned none)) :
    destroyBlock policy c tag destroy d ctx w
      = ({ now := w.now + dt,
           ledger := (resourceDestroyed policy d tag w.ledger).1,
           calls := w.calls ++ [.destroy ctx (.returned none),
             .resourceDestroyed tag (resourceDestroyed policy d tag w.ledger).2] },
         .returned none) := by
  simp [destroyBlock, h, hd, trace.Wrap, World.after]

/-- Whether the closure reaches the call of `CollectLogs`. -/
theorem collectLogsBlock_skip (policy : ProvisionerPolicy) (c : TestContext)
    (nodes : List Node) (skip : Bool) (w : World)
    (h : ¬ (skip = false ∧ (c.Failed = true ∨ policy.AlwaysCollectLogs = true))) :
    collectLogsBlock policy c nodes skip w = (w, true) := by
  simp only [collectLogsBlock]
  rw [if_neg]
  simpa using h

theorem collectLogsBlock_call (policy : ProvisionerPolicy) (c : TestContext)
    (nodes : List Node) (skip : Bool) (w : World)
    (h : skip = false ∧ (c.Failed = true ∨ policy.AlwaysCollectLogs = true)) :
    collectLogsBlock policy c nodes skip w
      = (w.after (.collectLogs "postmortem" nodes (c.CollectLogs "postmortem" nodes w.now).2)
          (c.CollectLogs "postmortem" nodes w.now).1,
         match (c.CollectLogs "postmortem" nodes w.now).2 with
         | .returned _ => true
         | .panicked => false) := by
  simp only [collectLogsBlock]
  rw [if_pos (by simpa using h)]
  cases (c.CollectLogs "postmortem" nodes w.now).2 <;> rfl

/-- The resource tags after `resourceDestroyed`, whatever the disk does. -/
theorem resourceDestroyed_tags (policy : ProvisionerPolicy) (d : DiskEnv) (tag : String)
    (l : Ledger) :
    (resourceDestroyed policy d tag l).1.tags = l.tags.filter (fun t => t ≠ tag) := by
  unfold resourceDestroyed saveResourceAllocations
  split
  · rfl
  · split <;> rfl

/-- The closure on an interrupted run that goes on to teardown: log collection is
skipped and destroy gets a fresh context. -/
theorem wrapDestroyFnBody_interrupted (policy : ProvisionerPolicy) (c : TestContext)
    (tag : String) (nodes : List Node) (destroy : Context → Nat → Nat × CallOutcome)
    (d : DiskEnv) (w : World) (e : CtxError)
    (hctx : Context.Err c.ctxDone .base w.now = some e)
    (hpol : policy.DestroyOnFailure = true) :
    wrapDestroyFnBody policy c tag nodes destroy d w
      = destroyBlock policy c tag destroy d
          (Context.WithTimeout w.now .background finalTeardownTimeout) w := by
  simp [wrapDestroyFnBody, hctx, hpol, collectLogsBlock]

/-- The closure on a live run that collects no logs. -/
theorem wrapDestroyFnBody_live_quiet (policy : ProvisionerPolicy) (c : TestContext)
    (tag : String) (nodes : List Node) (destroy : Context → Nat → Nat × CallOutcome)
    (d : DiskEnv) (w : World)
    (hctx : Context.Err c.ctxDone .base w.now = none)
    (hlog : ¬ (c.Failed = true ∨ policy.AlwaysCollectLogs = true)) :
    wrapDestroyFnBody policy c tag nodes destroy d w
      = destroyBlock policy c tag destroy d .base w := by
  have h := collectLogsBlock_skip policy c nodes false w (by simpa using hlog)
  simp [wrapDestroyFnBody, hctx, h]

/-- The closure on a live run whose log collection returns. -/
theorem wrapDestroyFnBody_live_logs (policy : ProvisionerPolicy) (c : TestContext)
    (tag : String) (nodes : List Node) (destroy : Context → Nat → Nat × CallOutcome)
    (d : DiskEnv) (w : World)
    (hctx : Context.Err c.ctxDone .base w.now = none)
    (hlog : c.Failed = true ∨ policy.AlwaysCollectLogs = true)
    (dt : Nat) (err : Option Error)
    (hl : c.CollectLogs "postmortem" nodes w.now = (dt, .returned err)) :
    wrapDestroyFnBody policy c tag nodes destroy d w
      = destroyBlock policy c tag destroy d .base
          (w.after (.collectLogs "postmortem" nodes (.returned err)) dt) := by
  have h := collectLogsBlock_call policy c nodes false w ⟨rfl, hlog⟩
  simp [wrapDestroyFnBody, hctx, h, hl]

/-- The closure on a live run whose log collection panics. -/
theorem wrapDestroyFnBody_live_logs_panicked (policy : ProvisionerPolicy) (c : TestContext)
    (tag : String) (nodes : List Node) (destroy : Context → Nat → Nat × CallOutcome)
    (d : DiskEnv) (w : World)
    (hctx : Context.Err c.ctxDone .base w.now = none)
    (hlog : c.Failed = true ∨ policy.AlwaysCollectLogs = true)
    (dt : Nat) (hl : c.CollectLogs "postmortem" nodes w.now = (dt, .panicked)) :
    wrapDestroyFnBody policy c tag nodes destroy d w
      = (w.after (.collectLogs "postmortem" nodes .panicked) dt, .panicked) := by
  have h := collectLogsBlock_call policy c nodes false w ⟨rfl, hlog⟩
  simp [wrapDestroyFnBody, hctx, h, hl]

theorem wrapDestroyFn_eq_recovered (policy : ProvisionerPolicy) (c : TestContext)
    (tag : String) (nodes : List Node) (destroy : Context → Nat → Nat × CallOutcome)
    (d : DiskEnv) (w : World) :
    wrapDestroyFn policy c tag nodes destroy d w
      = recovered (wrapDestroyFnBody policy c tag nodes destroy d w) := by
  rfl

/-- What the destroy block does to calls, ledger and result, seen from the world `w0`
in which the closure started, when the block is entered in a world `w` that extends
the calls of `w0` by calls of `CollectLogs` only. -/
theorem destroyBlock_outcome (policy : ProvisionerPolicy) (c : TestContext) (tag : String)
    (destroy : Context → Nat → Nat × CallOutcome) (d : DiskEnv) (ctx : Context)
    (w0 w : World) (pre : List Event) (hcalls : w.calls = w0.calls ++ pre)
    (hpre : ∀ ev ∈ pre, ev.isDestroy = false) (hledger : w.ledger = w0.ledger) :
    (∀ ctx1, Event.destroy ctx1 (.returned none)
        ∈ (recovered (destroyBlock policy c tag destroy d ctx w)).1.since w0 →
      (recovered (destroyBlock policy c tag destroy d ctx w)).1.ledger.tags
          = w0.ledger.tags.filter (fun t => t ≠ tag) ∧
        (recovered (destroyBlock policy c tag destroy d ctx w)).2 = .returned none) ∧
    (∀ ctx1 e, Event.destroy ctx1 (.returned (some e))
        ∈ (recovered (destroyBlock policy c tag destroy d ctx w)).1.since w0 →
      (recovered (destroyBlock policy c tag destroy d ctx w)).2
          = .returned (some (Error.wrap e)) ∧
        (recovered (destroyBlock policy c tag destroy d ctx w)).1.ledger = w0.ledger) ∧
    destroyCount ((recovered (destroyBlock policy c tag destroy d ctx w)).1.since w0)
      = if policy.DestroyOnSuccess = false ∨
          (c.Failed = true ∧ policy.DestroyOnFailure = false) then 0 else 1 := by
  have hne : ∀ ctx1 out, Event.destroy ctx1 out ∉ pre := by
    intro ctx1 out hmem
    simpa [Event.isDestroy] using hpre _ hmem
  have hcount : List.countP Event.isDestroy pre = 0 := by
    rw [List.countP_eq_zero]
    intro ev hev
    simp [hpre ev hev]
  by_cases hgate : policy.DestroyOnSuccess = false ∨
      (c.Failed = true ∧ policy.DestroyOnFailure = false)
  · rw [destroyBlock_closed policy c tag destroy d ctx w hgate]
    simp [recovered, World.since, hcalls, hne, hgate, destroyCount, hcount]
  · rcases hd : destroy ctx w.now with ⟨dt, ⟨_ | e⟩ | _⟩
    · rw [destroyBlock_done policy c tag destroy d ctx w hgate dt hd]
      simp [recovered, World.since, hcalls, hne, hgate, destroyCount, hcount,
        resourceDestroyed_tags, hledger, Event.isDestroy, List.countP_cons]
    · rw [destroyBlock_failed policy c tag destroy d ctx w hgate dt e hd]
      simp [recovered, World.since, World.after, hcalls, hne, hgate, destroyCount, hcount,
        hledger, Event.isDestroy, List.countP_cons]
    · rw [destroyBlock_panicked policy c tag destroy d ctx w hgate dt hd]
      simp [recovered, World.since, World.after, hcalls, hne, hgate, destroyCount, hcount,
        hledger, Event.isDestroy, List.countP_cons]

/-- The closure on an interrupted run with `DestroyOnFailure` unset. -/
theorem wrapDestroyFn_skipped (policy : ProvisionerPolicy) (c : TestContext)
    (tag : String) (nodes : List Node) (destroy : Context → Nat → Nat × CallOutcome)
    (d : DiskEnv) (w : World) (e : CtxError)
    (hctx : Context.Err c.ctxDone .base w.now = some e)
    (hpol : policy.DestroyOnFailure = false) :
    wrapDestroyFn policy c tag nodes destroy d w
      = (w, .returned (some (Error.wrap (Error.context e)))) := by
  simp [wrapDestroyFn, wrapDestroyFnBody, recovered, hctx, hpol, trace.Wrap]

/-! ## The teardown closure: destroy and the ledger -/

/-- What a call of destroy by the closure leads to, and the one call made for a passed
test on a live run whose log collection, if any, returns. -/
theorem wrapDestroyFn_destroy_facts (policy : ProvisionerPolicy) (c : TestContext)
    (tag : String) (nodes : List Node) (destroy : Context → Nat → Nat × CallOutcome)
    (d : DiskEnv) (w : World) :
    (∀ ctx, Event.destroy ctx (.returned none)
        ∈ (wrapDestroyFn policy c tag nodes destroy d w).1.since w →
      (wrapDestroyFn policy c tag nodes destroy d w).1.ledger.tags
          = w.ledger.tags.filter (fun t => t ≠ tag) ∧
        tag ∉ (wrapDestroyFn policy c tag nodes destroy d w).1.ledger.tags ∧
        (wrapDestroyFn policy c tag nodes destroy d w).2 = .returned none) ∧
    (∀ ctx e, Event.destroy ctx (.returned (some e))
        ∈ (wrapDestroyFn policy c tag nodes destroy d w).1.since w →
      (wrapDestroyFn policy c tag nodes destroy d w).2 = .returned (some (Error.wrap e)) ∧
        (wrapDestroyFn policy c tag nodes destroy d w).1.ledger = w.ledger ∧
        (tag ∈ w.ledger.tags →
          tag ∈ (wrapDestroyFn policy c tag nodes destroy d w).1.ledger.tags)) ∧
    (policy.DestroyOnSuccess = true → c.Failed = false →
      Context.Err c.ctxDone .base w.now = none →
      (policy.AlwaysCollectLogs = true →
        (c.CollectLogs "postmortem" nodes w.now).2 ≠ .panicked) →
      destroyCount ((wrapDestroyFn policy c tag nodes destroy d w).1.since w) = 1 ∧
        (∀ ctx, Event.destroy ctx (.returned none)
            ∈ (wrapDestroyFn policy c tag nodes destroy d w).1.since w →
          tag ∉ (wrapDestroyFn policy c tag nodes destroy d w).1.ledger.tags)) := by
  -- the three facts, from what the destroy block does
  have main : ∀ (ctx : Context) (w1 : World) (pre : List Event),
      w1.calls = w.calls ++ pre → (∀ ev ∈ pre, ev.isDestroy = false) → w1.ledger = w.ledger →
      wrapDestroyFn policy c tag nodes destroy d w
        = recovered (destroyBlock policy c tag destroy d ctx w1) →
      (∀ ctx, Event.destroy ctx (.returned none)
          ∈ (wrapDestroyFn policy c tag nodes destroy d w).1.since w →
        (wrapDestroyFn policy c tag nodes destroy d w).1.ledger.tags
            = w.ledger.tags.filter (fun t => t ≠ tag) ∧
          tag ∉ (wrapDestroyFn policy c tag nodes destroy d w).1.ledger.tags ∧
          (wrapDestroyFn policy c tag nodes destroy d w).2 = .returned none) ∧
      (∀ ctx e, Event.destroy ctx (.returned (some e))
          ∈ (wrapDestroyFn policy c tag nodes destroy d w).1.since w →
        (wrapDestroyFn policy c tag nodes destroy d w).2 = .returned (some (Error.wrap e)) ∧
          (wrapDestroyFn policy c tag nodes destroy d w).1.ledger = w.ledger ∧
          (tag ∈ w.ledger.tags →
            tag ∈ (wrapDestroyFn policy c tag nodes destroy d w).1.ledger.tags)) ∧
      (policy.DestroyOnSuccess = true → c.Failed = false →
        destroyCount ((wrapDestroyFn policy c tag nodes destroy d w).1.since w) = 1 ∧
          (∀ ctx, Event.destroy ctx (.returned none)
              ∈ (wrapDestroyFn policy c tag nodes destroy d w).1.since w →
            tag ∉ (wrapDestroyFn policy c tag nodes destroy d w).1.ledger.tags)) := by
    intro ctx w1 pre hcalls hpre hledger heq
    obtain ⟨h1, h2, h3⟩ :=
      destroyBlock_outcome policy c tag destroy d ctx w w1 pre hcalls hpre hledger
    rw [heq]
    have hnil : ∀ ctx1, Event.destroy ctx1 (.returned none)
        ∈ (recovered (destroyBlock policy c tag destroy d ctx w1)).1.since w →
        tag ∉ (recovered (destroyBlock policy c tag destroy d ctx w1)).1.ledger.tags := by
      intro ctx1 hmem
      rw [(h1 ctx1 hmem).1]
      simp
    refine ⟨fun ctx1 hmem => ⟨(h1 ctx1 hmem).1, hnil ctx1 hmem, (h1 ctx1 hmem).2⟩,
      fun ctx1 e hmem => ⟨(h2 ctx1 e hmem).1, (h2 ctx1 e hmem).2, ?_⟩, ?_⟩
    · rw [(h2 ctx1 e hmem).2]
      exact id
    · intro hdos hpass
      refine ⟨?_, hnil⟩
      rw [h3]
      simp [hdos, hpass]
  cases hctx : Context.Err c.ctxDone .base w.now with
  | some e =>
    cases hpol : policy.DestroyOnFailure with
    | false =>
      rw [wrapDestroyFn_skipped policy c tag nodes destroy d w e hctx hpol]
      refine ⟨?_, ?_, ?_⟩
      · simp [World.since_self]
      · simp [World.since_self]
      · intro _ _ hlive
        cases hlive
    | true =>
      obtain ⟨h1, h2, _⟩ := main _ w [] (by simp) (by simp) rfl
        (by rw [wrapDestroyFn_eq_recovered,
          wrapDestroyFnBody_interrupted policy c tag nodes destroy d w e hctx hpol])
      refine ⟨h1, h2, ?_⟩
      intro _ _ hlive
      cases hlive
  | none =>
    by_cases hlog : c.Failed = true ∨ policy.AlwaysCollectLogs = true
    · rcases hl : c.CollectLogs "postmortem" nodes w.now with ⟨dt, err | _⟩
      · obtain ⟨h1, h2, h3⟩ := main .base
          (w.after (.collectLogs "postmortem" nodes (.returned err)) dt)
          [.collectLogs "postmortem" nodes (.returned err)] (by simp [World.after])
          (by simp [Event.isDestroy]) (by simp [World.after])
          (by rw [wrapDestroyFn_eq_recovered,
            wrapDestroyFnBody_live_logs policy c tag nodes destroy d w hctx hlog dt err hl])
        exact ⟨h1, h2, fun hdos hpass _ _ => h3 hdos hpass⟩
      · have hr : wrapDestroyFn policy c tag nodes destroy d w
            = (w.after (.collectLogs "postmortem" nodes .panicked) dt, .returned none) := by
          rw [wrapDestroyFn_eq_recovered,
            wrapDestroyFnBody_live_logs_panicked policy c tag nodes destroy d w hctx hlog dt hl]
          rfl
        rw [hr]
        refine ⟨?_, ?_, ?_⟩
        · simp [World.since, World.after]
        · simp [World.since, World.after]
        · intro _ hpass _ hret
          have hacl : policy.AlwaysCollectLogs = true := by
            rcases hlog with hfail | hacl
            · rw [hpass] at hfail
              cases hfail
            · exact hacl
          exact absurd rfl (hret hacl)
    · obtain ⟨h1, h2, h3⟩ := main .base w [] (by simp) (by simp) rfl
        (by rw [wrapDestroyFn_eq_recovered,
          wrapDestroyFnBody_live_quiet policy c tag nodes destroy d w hctx hlog])
      exact ⟨h1, h2, fun hdos hpass _ _ => h3 hdos hpass⟩

/-- The closure on a live run whose log collection panics: the deferred `recover`
ends it there, with nil. -/
theorem wrapDestroyFn_logs_panicked (policy : ProvisionerPolicy) (c : TestContext)
    (tag : String) (nodes : List Node) (destroy : Context → Nat → Nat × CallOutcome)
    (d : DiskEnv) (w : World)
    (hctx : Context.Err c.ctxDone .base w.now = none)
    (hlog : c.Failed = true ∨ policy.AlwaysCollectLogs = true)
    (hp : (c.CollectLogs "postmortem" nodes w.now).2 = .panicked) :
    wrapDestroyFn policy c tag nodes destroy d w
      = (w.after (.collectLogs "postmortem" nodes .panicked)
          (c.CollectLogs "postmortem" nodes w.now).1, .returned none) := by
  rcases hl : c.CollectLogs "postmortem" nodes w.now with ⟨dt, out⟩
  rw [hl] at hp
  cases hp
  rw [wrapDestroyFn_eq_recovered,
    wrapDestroyFnBody_live_logs_panicked policy c tag nodes destroy d w hctx hlog dt hl]
  rfl

/-- C7, amended: whenever the closure calls destroy, (1) if that call returned nil, the
tag is removed from the ledger and the closure returns nil; (2) if it returned an
error `e`, the closure returns `trace.Wrap(e)`, which is not nil, and the ledger is
unchanged, so the tag stays registered if it was.  (3) With `DestroyOnSuccess` set, a
passed test and a live run context, destroy is called exactly once, and if it returned
nil the tag is no longer in the ledger, provided the log collection that
`AlwaysCollectLogs` asks for, if any, returns.  (4) If that log collection panics
instead, the panic is recovered: destroy is not called, the closure returns nil and
the ledger is unchanged. -/
theorem wrapDestroyFn_destroy_outcome (policy : ProvisionerPolicy) (c : TestContext)
    (tag : String) (nodes : List Node) (destroy : Context → Nat → Nat × CallOutcome)
    (d : DiskEnv) (w : World) :
    (∀ ctx, Event.destroy ctx (.returned none)
        ∈ (wrapDestroyFn policy c tag nodes destroy d w).1.since w →
      (wrapDestroyFn policy c tag nodes destroy d w).1.ledger.tags
          = w.ledger.tags.filter (fun t => t ≠ tag) ∧
        tag ∉ (wrapDestroyFn policy c tag nodes destroy d w).1.ledger.tags ∧
        (wrapDestroyFn policy c tag nodes destroy d w).2 = .returned none) ∧
    (∀ ctx e, Event.destroy ctx (.returned (some e))
        ∈ (wrapDestroyFn policy c tag nodes destroy d w).1.since w →
      (wrapDestroyFn policy c tag nodes destroy d w).2 = .returned (some (Error.wrap e)) ∧
        (wrapDestroyFn policy c tag nodes destroy d w).1.ledger = w.ledger ∧
        (tag ∈ w.ledger.tags →
          tag ∈ (wrapDestroyFn policy c tag nodes destroy d w).1.ledger.tags)) ∧
    (policy.DestroyOnSuccess = true → c.Failed = false →
      Context.Err c.ctxDone .base w.now = none →
      (policy.AlwaysCollectLogs = true →
        (c.CollectLogs "postmortem" nodes w.now).2 ≠ .panicked) →
      destroyCount ((wrapDestroyFn policy c tag nodes destroy d w).1.since w) = 1 ∧
        (∀ ctx, Event.destroy ctx (.returned none)
            ∈ (wrapDestroyFn policy c tag nodes destroy d w).1.since w →
          tag ∉ (wrapDestroyFn policy c tag nodes destroy d w).1.ledger.tags)) ∧
    (Context.Err c.ctxDone .base w.now = none → policy.AlwaysCollectLogs = true →
      (c.CollectLogs "postmortem" nodes w.now).2 = .panicked →
      destroyCount ((wrapDestroyFn policy c tag nodes destroy d w).1.since w) = 0 ∧
        (wrapDestroyFn policy c tag nodes destroy d w).2 = .returned none ∧
        (wrapDestroyFn policy c tag nodes destroy d w).1.ledger = w.ledger) := by
  obtain ⟨h1, h2, h3⟩ := wrapDestroyFn_destroy_facts policy c tag nodes destroy d w
  refine ⟨h1, h2, h3, ?_⟩
  intro hctx hacl hp
  rw [wrapDestroyFn_logs_panicked policy c tag nodes destroy d w hctx (Or.inr hacl) hp]
  exact ⟨by simp [World.since, World.after, destroyCount, Event.isDestroy], rfl, rfl⟩

/-- C7 as first stated fails: with `DestroyOnSuccess` and `AlwaysCollectLogs` set, a
passed test and a live run context, a `CollectLogs` that panics is recovered by the
deferred function, and the closure returns nil without calling destroy; the tag `t1`
stays in the ledger.  So destroy does not run exactly once for every such run. -/
theorem wrapDestroyFn_passed_test_collector_panics :
    Context.Err none .base 7 = none ∧
    (wrapDestroyFn ⟨true, false, true, ""⟩ ⟨false, none, fun _ _ _ => (1, .panicked)⟩
        "t1" ["n1"] (fun _ _ => (2, .returned none)) DiskEnv.good
        ⟨7, ⟨["t1"], none⟩, []⟩).1.calls
      = [.collectLogs "postmortem" ["n1"] .panicked] ∧
    destroyCount ((wrapDestroyFn ⟨true, false, true, ""⟩
        ⟨false, none, fun _ _ _ => (1, .panicked)⟩
        "t1" ["n1"] (fun _ _ => (2, .returned none)) DiskEnv.good
        ⟨7, ⟨["t1"], none⟩, []⟩).1.since ⟨7, ⟨["t1"], none⟩, []⟩) = 0 ∧
    (wrapDestroyFn ⟨true, false, true, ""⟩ ⟨false, none, fun _ _ _ => (1, .panicked)⟩
        "t1" ["n1"] (fun _ _ => (2, .returned none)) DiskEnv.good
        ⟨7, ⟨["t1"], none⟩, []⟩).2 = .returned none ∧
    (wrapDestroyFn ⟨true, false, true, ""⟩ ⟨false, none, fun _ _ _ => (1, .panicked)⟩
        "t1" ["n1"] (fun _ _ => (2, .returned none)) DiskEnv.good
        ⟨7, ⟨["t1"], none⟩, []⟩).1.ledger = ⟨["t1"], none⟩ ∧
    ¬ (∀ (policy : ProvisionerPolicy) (c : TestContext) (tag : String) (nodes : List Node)
        (destroy : Context → Nat → Nat × CallOutcome) (d : DiskEnv) (w : World),
      policy.DestroyOnSuccess = true → c.Failed = false →
      Context.Err c.ctxDone .base w.now = none →
      destroyCount ((wrapDestroyFn policy c tag nodes destroy d w).1.since w) = 1) := by
  refine ⟨rfl, rfl, rfl, rfl, rfl, ?_⟩
  intro h
  have h1 := h ⟨true, false, true, ""⟩ ⟨false, none, fun _ _ _ => (1, .panicked)⟩
    "t1" ["n1"] (fun _ _ => (2, .returned none)) DiskEnv.good ⟨7, ⟨["t1"], none⟩, []⟩
    rfl rfl rfl
  have h0 : destroyCount ((wrapDestroyFn ⟨true, false, true, ""⟩
      ⟨false, none, fun _ _ _ => (1, .panicked)⟩
      "t1" ["n1"] (fun _ _ => (2, .returned none)) DiskEnv.good
      ⟨7, ⟨["t1"], none⟩, []⟩).1.since ⟨7, ⟨["t1"], none⟩, []⟩) = 0 := rfl
  exact absurd (h0.symm.trans h1) (by decide)

/-- C7 at a passed test on a live run with `DestroyOnSuccess` set, whose log collection
returns an error and whose destroy returns nil: destroy is called once and the tag
`t1` is gone from the ledger. -/
theorem wrapDestroyFn_destroy_outcome_witness :
    Context.Err none .base 7 = none ∧
    Event.destroy .base (.returned none) ∈
      (wrapDestroyFn ⟨true, false, true, ""⟩
        ⟨false, none, fun _ _ _ => (2, .returned (some (.external 9)))⟩ "t1" ["n1"]
        (fun _ _ => (3, .returned none)) DiskEnv.good ⟨7, ⟨["t1", "t2"], none⟩, []⟩).1.since
          ⟨7, ⟨["t1", "t2"], none⟩, []⟩ ∧
    destroyCount ((wrapDestroyFn ⟨true, false, true, ""⟩
        ⟨false, none, fun _ _ _ => (2, .returned (some (.external 9)))⟩ "t1" ["n1"]
        (fun _ _ => (3, .returned none)) DiskEnv.good ⟨7, ⟨["t1", "t2"], none⟩, []⟩).1.since
          ⟨7, ⟨["t1", "t2"], none⟩, []⟩) = 1 ∧
    "t1" ∉ (wrapDestroyFn ⟨true, false, true, ""⟩
        ⟨false, none, fun _ _ _ => (2, .returned (some (.external 9)))⟩ "t1" ["n1"]
        (fun _ _ => (3, .returned none)) DiskEnv.good
        ⟨7, ⟨["t1", "t2"], none⟩, []⟩).1.ledger.tags :=
  have hmem : Event.destroy .base (.returned none) ∈
      (wrapDestroyFn ⟨true, false, true, ""⟩
        ⟨false, none, fun _ _ _ => (2, .returned (some (.external 9)))⟩ "t1" ["n1"]
        (fun _ _ => (3, .returned none)) DiskEnv.good ⟨7, ⟨["t1", "t2"], none⟩, []⟩).1.since
          ⟨7, ⟨["t1", "t2"], none⟩, []⟩ :=
    List.mem_cons_of_mem _ (List.mem_cons_self _ _)
  have h := (wrapDestroyFn_destroy_outcome ⟨true, false, true, ""⟩
    ⟨false, none, fun _ _ _ => (2, .returned (some (.external 9)))⟩ "t1" ["n1"]
    (fun _ _ => (3, .returned none)) DiskEnv.good ⟨7, ⟨["t1", "t2"], none⟩, []⟩).2.2.1
    rfl rfl rfl (fun _ h => CallOutcome.noConfusion h)
  ⟨rfl, hmem, h.1, h.2 .base hmem⟩

/-! ## The teardown closure: log collection -/

/-- The destroy block makes no call of `CollectLogs`. -/
theorem destroyBlock_collectLogsCount (policy : ProvisionerPolicy) (c : TestContext)
    (tag : String) (destroy : Context → Nat → Nat × CallOutcome) (d : DiskEnv)
    (ctx : Context) (w0 w : World) (pre : List Event) (hcalls : w.calls = w0.calls ++ pre) :
    collectLogsCount ((recovered (destroyBlock policy c tag destroy d ctx w)).1.since w0)
      = collectLogsCount pre := by
  by_cases hgate : policy.DestroyOnSuccess = false ∨
      (c.Failed = true ∧ policy.DestroyOnFailure = false)
  · rw [destroyBlock_closed policy c tag destroy d ctx w hgate]
    simp [recovered, World.since, hcalls]
  · rcases hd : destroy ctx w.now with ⟨dt, ⟨_ | e⟩ | _⟩
    · rw [destroyBlock_done policy c tag destroy d ctx w hgate dt hd]
      simp [recovered, World.since, hcalls, collectLogsCount, Event.isCollectLogs,
        List.countP_cons, List.countP_append]
    · rw [destroyBlock_failed policy c tag destroy d ctx w hgate dt e hd]
      simp [recovered, World.since, World.after, hcalls, collectLogsCount,
        Event.isCollectLogs, List.countP_cons, List.countP_append]
    · rw [destroyBlock_panicked policy c tag destroy d ctx w hgate dt hd]
      simp [recovered, World.since, World.after, hcalls, collectLogsCount,
        Event.isCollectLogs, List.countP_cons, List.countP_append]

/-- C8: the closure calls `CollectLogs` exactly once when the run context is live
(`ctx.Err()` is nil) and the test failed or `AlwaysCollectLogs` is set, and not at all
otherwise (so never on an interrupted run), whatever the collaborators do. -/
theorem wrapDestroyFn_collectLogs_count (policy : ProvisionerPolicy) (c : TestContext)
    (tag : String) (nodes : List Node) (destroy : Context → Nat → Nat × CallOutcome)
    (d : DiskEnv) (w : World) :
    collectLogsCount ((wrapDestroyFn policy c tag nodes destroy d w).1.since w) =
      if Context.Err c.ctxDone .base w.now = none ∧
          (c.Failed = true ∨ policy.AlwaysCollectLogs = true) then 1 else 0 := by
  cases hctx : Context.Err c.ctxDone .base w.now with
  | some e =>
    cases hpol : policy.DestroyOnFailure with
    | false =>
      rw [wrapDestroyFn_skipped policy c tag nodes destroy d w e hctx hpol]
      simp [World.since_self, collectLogsCount]
    | true =>
      rw [wrapDestroyFn_eq_recovered,
        wrapDestroyFnBody_interrupted policy c tag nodes destroy d w e hctx hpol,
        destroyBlock_collectLogsCount policy c tag destroy d _ w w [] (by simp)]
      simp [collectLogsCount]
  | none =>
    by_cases hlog : c.Failed = true ∨ policy.AlwaysCollectLogs = true
    · rcases hl : c.CollectLogs "postmortem" nodes w.now with ⟨dt, err | _⟩
      · rw [wrapDestroyFn_eq_recovered,
          wrapDestroyFnBody_live_logs policy c tag nodes destroy d w hctx hlog dt err hl,
          destroyBlock_collectLogsCount policy c tag destroy d _ w _
            [.collectLogs "postmortem" nodes (.returned err)] (by simp [World.after])]
        simp [collectLogsCount, Event.isCollectLogs, hlog]
      · rw [wrapDestroyFn_eq_recovered,
          wrapDestroyFnBody_live_logs_panicked policy c tag nodes destroy d w hctx hlog dt hl]
        simp [recovered, World.since, World.after, collectLogsCount, Event.isCollectLogs, hlog]
    · rw [wrapDestroyFn_eq_recovered,
        wrapDestroyFnBody_live_quiet policy c tag nodes destroy d w hctx hlog,
        destroyBlock_collectLogsCount policy c tag destroy d _ w w [] (by simp)]
      simp [collectLogsCount, hlog]

/-! ## The ledger in memory -/

/-- A failed write reports a converted system error. -/
theorem fprintlnAll_err (fault : DiskFault) (keys : List String) (k : Nat)
    (content : List Nat) (pos : Nat) (err : Error)
    (h : (fprintlnAll fault keys k content pos).2 = some err) : ∃ e, err = Error.system e := by
  induction keys generalizing k content pos with
  | nil => simp [fprintlnAll] at h
  | cons res rest ih =>
    unfold fprintlnAll at h
    split at h
    · split at h
      · simp only [trace.ConvertSystemError, Option.map_some', Option.some.injEq] at h
        exact ⟨_, h.symm⟩
      · exact ih _ _ _ h
    · exact ih _ _ _ h

/-- Without a fault every write succeeds. -/
theorem fprintlnAll_ok (keys : List String) (k : Nat) (content : List Nat) (pos : Nat) :
    (fprintlnAll .ok keys k content pos).2 = none := by
  induction keys generalizing k content pos with
  | nil => rfl
  | cons res rest ih =>
    unfold fprintlnAll
    exact ih _ _ _

/-- Saving does not touch the tags in memory. -/
theorem saveResourceAllocations_tags (policy : ProvisionerPolicy) (d : DiskEnv) (l : Ledger) :
    (saveResourceAllocations policy d l).1.tags = l.tags := by
  unfold saveResourceAllocations
  split
  · rfl
  · split <;> rfl

/-- Saving never reports a duplicate tag. -/
theorem saveResourceAllocations_err (policy : ProvisionerPolicy) (d : DiskEnv) (l : Ledger)
    (err : Error) (h : (saveResourceAllocations policy d l).2 = some err) :
    ∃ e, err = Error.system e := by
  unfold saveResourceAllocations at h
  split at h
  · simp at h
  · split at h
    · simp only [trace.ConvertSystemError, Option.map_some', Option.some.injEq] at h
      exact ⟨_, h.symm⟩
    · exact fprintlnAll_err _ _ _ _ _ err h

/-- Saving succeeds when the disk does, and when no file is configured. -/
theorem saveResourceAllocations_ok (policy : ProvisionerPolicy) (d : DiskEnv) (l : Ledger)
    (h : d.fault = .ok ∨ policy.ResourceListFile = "") :
    (saveResourceAllocations policy d l).2 = none := by
  unfold saveResourceAllocations
  split
  · rfl
  · rename_i hfile
    rcases h with h | h
    · rw [h]
      exact fprintlnAll_ok _ _ _ _
    · exact absurd h hfile

/-- A registered tag stays registered as long as `resourceDestroyed` is not called
for it. -/
theorem runOps_mem (policy : ProvisionerPolicy) (tag : String)
    (ops : List (LedgerOp × DiskEnv)) (l : Ledger) (hmem : tag ∈ l.tags)
    (hops : ∀ x ∈ ops, x.1 ≠ LedgerOp.destroyed tag) :
    tag ∈ (runOps policy ops l).tags := by
  induction ops generalizing l with
  | nil => exact hmem
  | cons x rest ih =>
    rcases x with ⟨op, d⟩
    unfold runOps
    apply ih
    · cases op with
      | allocated t =>
        show tag ∈ (resourceAllocated policy d t l).1.tags
        unfold resourceAllocated
        split
        · exact hmem
        · rw [saveResourceAllocations_tags]
          exact List.mem_append_left _ hmem
      | destroyed t =>
        show tag ∈ (resourceDestroyed policy d t l).1.tags
        rw [resourceDestroyed_tags]
        have hne : t ≠ tag := fun h => hops (.destroyed t, d) (by simp) (by rw [h])
        simp [hmem, Ne.symm hne]
    · intro y hy
      exact hops y (List.mem_cons_of_mem _ hy)

/-- C9: `resourceAllocated(tag)` returns the duplicate-tag error exactly when the tag
is already in the ledger in memory (1), and then leaves the ledger as it was (2);
otherwise it inserts the tag (3).  So after a successful `resourceAllocated(tag)`,
a later `resourceAllocated(tag)` fails with the duplicate-tag error after any calls
of the two operations that do not include `resourceDestroyed(tag)` (4); and after
`resourceDestroyed(tag)` a call `resourceAllocated(tag)` registers the tag again
without a duplicate-tag error, returning what saving returns: nil when the disk
does not fail or no file is configured (5). -/
theorem resourceAllocated_duplicate (policy : ProvisionerPolicy) (d : DiskEnv)
    (tag : String) (l : Ledger) :
    ((resourceAllocated policy d tag l).2 = some (Error.notUnique tag) ↔ tag ∈ l.tags) ∧
    (tag ∈ l.tags → (resourceAllocated policy d tag l).1 = l) ∧
    (tag ∉ l.tags → (resourceAllocated policy d tag l).1.tags = l.tags ++ [tag] ∧
      tag ∈ (resourceAllocated policy d tag l).1.tags) ∧
    ((resourceAllocated policy d tag l).2 = none →
      ∀ (ops : List (LedgerOp × DiskEnv)) (d1 : DiskEnv),
        (∀ x ∈ ops, x.1 ≠ LedgerOp.destroyed tag) →
        (resourceAllocated policy d1 tag
            (runOps policy ops (resourceAllocated policy d tag l).1)).2
          = some (Error.notUnique tag)) ∧
    (∀ d1 d2 : DiskEnv,
      (resourceAllocated policy d2 tag (resourceDestroyed policy d1 tag l).1).2
          ≠ some (Error.notUnique tag) ∧
        tag ∈ (resourceAllocated policy d2 tag (resourceDestroyed policy d1 tag l).1).1.tags ∧
        (d2.fault = .ok ∨ policy.ResourceListFile = "" →
          (resourceAllocated policy d2 tag (resourceDestroyed policy d1 tag l).1).2 = none)) := by
  have hdup : ∀ (d0 : DiskEnv) (l0 : Ledger), tag ∈ l0.tags →
      resourceAllocated policy d0 tag l0 = (l0, some (Error.notUnique tag)) := by
    intro d0 l0 h
    simp [resourceAllocated, h]
  have hnew : ∀ (d0 : DiskEnv) (l0 : Ledger), tag ∉ l0.tags →
      resourceAllocated policy d0 tag l0
        = saveResourceAllocations policy d0 { l0 with tags := l0.tags ++ [tag] } := by
    intro d0 l0 h
    simp [resourceAllocated, h]
  have hnodup : ∀ (d0 : DiskEnv) (l0 : Ledger), tag ∉ l0.tags →
      (resourceAllocated policy d0 tag l0).2 ≠ some (Error.notUnique tag) := by
    intro d0 l0 h heq
    rw [hnew d0 l0 h] at heq
    obtain ⟨e, he⟩ := saveResourceAllocations_err _ _ _ _ heq
    cases he
  have habsent : ∀ d1 : DiskEnv, tag ∉ (resourceDestroyed policy d1 tag l).1.tags := by
    intro d1
    rw [resourceDestroyed_tags]
    simp
  refine ⟨⟨?_, fun h => by rw [hdup d l h]⟩, fun h => by rw [hdup d l h], ?_, ?_, ?_⟩
  · intro h
    by_contra hmem
    exact hnodup d l hmem h
  · intro h
    rw [hnew d l h, saveResourceAllocations_tags]
    simp
  · intro hok ops d1 hops
    have hmem : tag ∈ (resourceAllocated policy d tag l).1.tags := by
      by_cases h : tag ∈ l.tags
      · rw [hdup d l h]
        exact h
      · rw [hnew d l h, saveResourceAllocations_tags]
        simp
    rw [hdup d1 _ (runOps_mem policy tag ops _ hmem hops)]
  · intro d1 d2
    refine ⟨hnodup d2 _ (habsent d1), ?_, ?_⟩
    · rw [hnew d2 _ (habsent d1), saveResourceAllocations_tags]
      simp
    · intro h
      rw [hnew d2 _ (habsent d1)]
      exact saveResourceAllocations_ok _ _ _ h

/-- C9 at the empty ledger and the tag `a`: after `resourceAllocated("a")` succeeded,
and after calls for another tag and a failing second registration of `a`, the call
`resourceAllocated("a")` returns the duplicate-tag error. -/
theorem resourceAllocated_duplicate_witness :
    (resourceAllocated ⟨true, true, false, "tags.txt"⟩ DiskEnv.good "a" ⟨[], none⟩).2 = none ∧
    (resourceAllocated ⟨true, true, false, "tags.txt"⟩ DiskEnv.good "a"
        (runOps ⟨true, true, false, "tags.txt"⟩
          [(.allocated "b", DiskEnv.good), (.destroyed "b", DiskEnv.good),
            (.allocated "a", DiskEnv.good)]
          (resourceAllocated ⟨true, true, false, "tags.txt"⟩ DiskEnv.good "a"
            ⟨[], none⟩).1)).2
      = some (Error.notUnique "a") :=
  have hok : (resourceAllocated ⟨true, true, false, "tags.txt"⟩ DiskEnv.good "a"
      ⟨[], none⟩).2 = none := by
    simp [resourceAllocated, saveResourceAllocations, fprintlnAll, DiskEnv.good]
  ⟨hok, (resourceAllocated_duplicate ⟨true, true, false, "tags.txt"⟩ DiskEnv.good "a"
    ⟨[], none⟩).2.2.2.1 hok _ DiskEnv.good (by simp)⟩

/-- The operation `resourceDestroyed` on the tags in memory: an absent tag leaves
them as they are, a second call changes nothing more, the tag is absent afterwards,
and the call returns nil when the disk does not fail or no file is configured. -/
theorem resourceDestroyed_idempotent_tags (policy : ProvisionerPolicy) (d1 d2 : DiskEnv)
    (tag : String) (l : Ledger) :
    (tag ∉ l.tags → (resourceDestroyed policy d1 tag l).1.tags = l.tags) ∧
    (resourceDestroyed policy d2 tag (resourceDestroyed policy d1 tag l).1).1.tags
      = (resourceDestroyed policy d1 tag l).1.tags ∧
    tag ∉ (resourceDestroyed policy d1 tag l).1.tags ∧
    (d2.fault = .ok ∨ policy.ResourceListFile = "" →
      (resourceDestroyed policy d2 tag (resourceDestroyed policy d1 tag l).1).2 = none) := by
  refine ⟨?_, ?_, ?_, ?_⟩
  · intro h
    rw [resourceDestroyed_tags, List.filter_eq_self]
    intro t ht
    have : t ≠ tag := fun heq => h (heq ▸ ht)
    simpa using this
  · rw [resourceDestroyed_tags, resourceDestroyed_tags, List.filter_filter]
    simp
  · rw [resourceDestroyed_tags]
    simp
  · intro h
    exact saveResourceAllocations_ok _ _ _ h

/-! ## The ledger file -/

/-- A range over a map with one key visits that key. -/
theorem RangeOrder.keys_singleton (o : RangeOrder) (t : String) : o.keys [t] = [t] :=
  List.perm_singleton.mp (o.perm [t])

/-- A range over an empty map visits nothing. -/
theorem RangeOrder.keys_nil (o : RangeOrder) : o.keys [] = [] :=
  List.Perm.eq_nil (o.perm [])

/-- The bytes written for the tag `a`. -/
theorem stringBytes_a : stringBytes "a" = [97] := by
  decide

/-- C2 fails on the code: with the ledger file configured and a disk that never
fails, `resourceAllocated("a")` followed by `resourceDestroyed("a")` leaves the ledger
in memory empty, while the file, never truncated, still holds the line `a` (the byte
97 and the newline), in whatever order the map is ranged over. -/
theorem ledger_file_keeps_destroyed_tag (o1 o2 : RangeOrder) :
    (runOps ⟨true, true, false, "tags.txt"⟩
      [(.allocated "a", ⟨.ok, o1⟩), (.destroyed "a", ⟨.ok, o2⟩)] ⟨[], none⟩).tags = [] ∧
    (runOps ⟨true, true, false, "tags.txt"⟩
      [(.allocated "a", ⟨.ok, o1⟩), (.destroyed "a", ⟨.ok, o2⟩)] ⟨[], none⟩).file
        = some (stringBytes "a" ++ [newline]) ∧
    (runOps ⟨true, true, false, "tags.txt"⟩
      [(.allocated "a", ⟨.ok, o1⟩), (.destroyed "a", ⟨.ok, o2⟩)] ⟨[], none⟩).fileTags
        = [stringBytes "a"] := by
  have h : runOps ⟨true, true, false, "tags.txt"⟩
      [(.allocated "a", ⟨.ok, o1⟩), (.destroyed "a", ⟨.ok, o2⟩)] ⟨[], none⟩
      = ⟨[], some [97, 10]⟩ := by
    simp [runOps, LedgerOp.run, resourceAllocated, resourceDestroyed, saveResourceAllocations,
      fprintlnAll, writeAt, RangeOrder.keys_singleton, RangeOrder.keys_nil, stringBytes_a,
      newline]
  rw [h, stringBytes_a]
  exact ⟨rfl, rfl, by decide⟩

/-- C10 fails on the code: with the ledger file configured and a disk that never
fails, after `resourceAllocated("a")` two calls of `resourceDestroyed("a")` both return
nil and leave the tag out of the ledger in memory, but the file still holds the line
`a` (the byte 97 and the newline) after the first and after the second call. -/
theorem resourceDestroyed_twice_file_keeps_tag (o1 o2 o3 : RangeOrder) :
    (resourceAllocated ⟨true, true, false, "tags.txt"⟩ ⟨.ok, o1⟩ "a" ⟨[], none⟩).1
      = ⟨["a"], some (stringBytes "a" ++ [newline])⟩ ∧
    resourceDestroyed ⟨true, true, false, "tags.txt"⟩ ⟨.ok, o2⟩ "a"
        ⟨["a"], some (stringBytes "a" ++ [newline])⟩
      = (⟨[], some (stringBytes "a" ++ [newline])⟩, none) ∧
    resourceDestroyed ⟨true, true, false, "tags.txt"⟩ ⟨.ok, o3⟩ "a"
        ⟨[], some (stringBytes "a" ++ [newline])⟩
      = (⟨[], some (stringBytes "a" ++ [newline])⟩, none) ∧
    stringBytes "a" ∈ Ledger.fileTags ⟨[], some (stringBytes "a" ++ [newline])⟩ := by
  rw [stringBytes_a]
  refine ⟨?_, ?_, ?_, by decide⟩
  · simp [resourceAllocated, saveResourceAllocations, fprintlnAll, writeAt,
      RangeOrder.keys_singleton, stringBytes_a, newline]
  · simp [resourceDestroyed, saveResourceAllocations, fprintlnAll, RangeOrder.keys_nil]
  · simp [resourceDestroyed, saveResourceAllocations, fprintlnAll, RangeOrder.keys_nil]

/-! ## The destroy gate of the teardown closure -/

/-- C1 fails on the code: with `DestroyOnFailure` set and `DestroyOnSuccess` unset, a
failed test on a live run context (`ctx.Err()` is nil) ends with no call of destroy:
the closure collects logs, stops at the gate and returns nil. -/
theorem wrapDestroyFn_failed_test_not_destroyed :
    Context.Err none .base 7 = none ∧
    (wrapDestroyFn ⟨false, true, false, ""⟩ ⟨true, none, fun _ _ _ => (1, .returned none)⟩
        "t1" ["n1"] (fun _ _ => (1, .returned none)) DiskEnv.good
        ⟨7, ⟨["t1"], none⟩, []⟩).1.calls
      = [.collectLogs "postmortem" ["n1"] (.returned none)] ∧
    destroyCount (wrapDestroyFn ⟨false, true, false, ""⟩
        ⟨true, none, fun _ _ _ => (1, .returned none)⟩
        "t1" ["n1"] (fun _ _ => (1, .returned none)) DiskEnv.good
        ⟨7, ⟨["t1"], none⟩, []⟩).1.calls = 0 ∧
    (wrapDestroyFn ⟨false, true, false, ""⟩ ⟨true, none, fun _ _ _ => (1, .returned none)⟩
        "t1" ["n1"] (fun _ _ => (1, .returned none)) DiskEnv.good
        ⟨7, ⟨["t1"], none⟩, []⟩).2 = .returned none :=
  ⟨rfl, rfl, rfl, rfl⟩

/-- C5 fails on the code: with `DestroyOnFailure` set and `DestroyOnSuccess` unset, a
run whose context was cancelled (`ctx.Err()` is `context.Canceled`) ends with no call
at all: the closure stops at the gate and returns nil, for a passed and for a failed
test alike. -/
theorem wrapDestroyFn_interrupted_not_destroyed (failed : Bool) :
    Context.Err (some (3, .canceled)) .base 7 = some .canceled ∧
    (wrapDestroyFn ⟨false, true, false, ""⟩
        ⟨failed, some (3, .canceled), fun _ _ _ => (1, .returned none)⟩
        "t1" ["n1"] (fun _ _ => (1, .returned none)) DiskEnv.good
        ⟨7, ⟨["t1"], none⟩, []⟩).1.calls = [] ∧
    destroyCount (wrapDestroyFn ⟨false, true, false, ""⟩
        ⟨failed, some (3, .canceled), fun _ _ _ => (1, .returned none)⟩
        "t1" ["n1"] (fun _ _ => (1, .returned none)) DiskEnv.good
        ⟨7, ⟨["t1"], none⟩, []⟩).1.calls = 0 ∧
    (wrapDestroyFn ⟨false, true, false, ""⟩
        ⟨failed, some (3, .canceled), fun _ _ _ => (1, .returned none)⟩
        "t1" ["n1"] (fun _ _ => (1, .returned none)) DiskEnv.good
        ⟨7, ⟨["t1"], none⟩, []⟩).2 = .returned none := by
  cases failed <;> exact ⟨rfl, rfl, rfl, rfl⟩

/-! ## The provisioning loop -/

/-- C3 fails on the code: the first `Create` runs into its own threshold of 15 minutes
and returns an error while the outer context is never cancelled.  `runTerraform` then
finds `ctx.Err()` of the attempt context set, calls `Destroy` with the teardown
context and returns the aggregated error: `Create` is called once, not twice. -/
theorem runTerraform_attempt_timeout_not_retried :
    Context.Err none .base (Minute * 15 + Minute) = none ∧
    (runTerraform ⟨true, true, false, ""⟩
        ⟨.ok ⟨fun i _ _ => if i = 0 then (Minute * 15, some (.external 1)) else (Minute, none),
          fun _ _ => (Minute, none), ["n1"]⟩, none, DiskEnv.good⟩
        "t1" ⟨0, ⟨[], none⟩, []⟩).1.calls
      = [.create (.deadline .base (Minute * 15)) (some (.external 1)),
         .destroy (.deadline .background (Minute * 15 + finalTeardownTimeout))
           (.returned none)] ∧
    createCount (runTerraform ⟨true, true, false, ""⟩
        ⟨.ok ⟨fun i _ _ => if i = 0 then (Minute * 15, some (.external 1)) else (Minute, none),
          fun _ _ => (Minute, none), ["n1"]⟩, none, DiskEnv.good⟩
        "t1" ⟨0, ⟨[], none⟩, []⟩).1.calls = 1 ∧
    (runTerraform ⟨true, true, false, ""⟩
        ⟨.ok ⟨fun i _ _ => if i = 0 then (Minute * 15, some (.external 1)) else (Minute, none),
          fun _ _ => (Minute, none), ["n1"]⟩, none, DiskEnv.good⟩
        "t1" ⟨0, ⟨[], none⟩, []⟩).2.err
      = some (.aggregate [.interrupted .deadlineExceeded (some (.external 1))]) ∧
    (runTerraform ⟨true, true, false, ""⟩
        ⟨.ok ⟨fun i _ _ => if i = 0 then (Minute * 15, some (.external 1)) else (Minute, none),
          fun _ _ => (Minute, none), ["n1"]⟩, none, DiskEnv.good⟩
        "t1" ⟨0, ⟨[], none⟩, []⟩).2.nodes = none :=
  ⟨rfl, rfl, rfl, rfl, rfl⟩

/-- C4 fails on the code: the tag `t1` is already in the ledger and the first `Create`
succeeds.  The call `resourceAllocated("t1")` returns the duplicate-tag error, which
`runTerraform` drops: it returns the nodes, the destroy function and a nil error. -/
theorem runTerraform_duplicate_tag_dropped :
    (runTerraform ⟨true, true, false, ""⟩
        ⟨.ok ⟨fun _ _ _ => (Minute, none), fun _ _ => (Minute, none), ["n1"]⟩, none,
          DiskEnv.good⟩
        "t1" ⟨0, ⟨["t1"], none⟩, []⟩).1.calls
      = [.create (.deadline .base (Minute * 15)) none,
         .resourceAllocated "t1" (some (.notUnique "t1"))] ∧
    (runTerraform ⟨true, true, false, ""⟩
        ⟨.ok ⟨fun _ _ _ => (Minute, none), fun _ _ => (Minute, none), ["n1"]⟩, none,
          DiskEnv.good⟩
        "t1" ⟨0, ⟨["t1"], none⟩, []⟩).2.err = none ∧
    (runTerraform ⟨true, true, false, ""⟩
        ⟨.ok ⟨fun _ _ _ => (Minute, none), fun _ _ => (Minute, none), ["n1"]⟩, none,
          DiskEnv.good⟩
        "t1" ⟨0, ⟨["t1"], none⟩, []⟩).2.nodes = some ["n1"] ∧
    (runTerraform ⟨true, true, false, ""⟩
        ⟨.ok ⟨fun _ _ _ => (Minute, none), fun _ _ => (Minute, none), ["n1"]⟩, none,
          DiskEnv.good⟩
        "t1" ⟨0, ⟨["t1"], none⟩, []⟩).2.destroy.isSome = true :=
  ⟨by simp [runTerraform, runTerraformLoop, thresholds, World.after, Context.Err,
      Context.doneAt, Context.WithTimeout, resourceAllocated, Minute, Second],
    by simp [runTerraform, runTerraformLoop, thresholds, World.after, Context.Err,
      Context.doneAt, Context.WithTimeout, Minute, Second],
    by simp [runTerraform, runTerraformLoop, thresholds, World.after, Context.Err,
      Context.doneAt, Context.WithTimeout, Minute, Second],
    by simp [runTerraform, runTerraformLoop, thresholds, World.after, Context.Err,
      Context.doneAt, Context.WithTimeout, Minute, Second]⟩

/-! ## The steps of the provisioning loop -/

/-- The statement after the loop: `Destroy` with the outer context, and the aggregate
of `err` and its result. -/
theorem runTerraformLoop_exhausted (policy : ProvisionerPolicy) (env : TerraformEnv)
    (p : Provisioner) (tag : String) (i : Nat) (err : Option Error) (w : World) :
    runTerraformLoop policy env p tag [] i err w
      = (w.after (.destroy .base (.returned (p.Destroy .base w.now).2))
          (p.Destroy .base w.now).1,
         ⟨none, none, trace.NewAggregate [err, (p.Destroy .base w.now).2]⟩) := by
  rw [runTerraformLoop]

/-- An attempt after which the attempt context is done. -/
theorem runTerraformLoop_interrupted (policy : ProvisionerPolicy) (env : TerraformEnv)
    (p : Provisioner) (tag : String) (threshold : Nat) (rest : List Nat) (i : Nat)
    (err : Option Error) (w : World) (dt : Nat) (res : Option Error) (ce : CtxError)
    (hc : p.Create i (Context.WithTimeout w.now .base threshold) w.now = (dt, res))
    (hctx : Context.Err env.baseDone (Context.WithTimeout w.now .base threshold)
      (w.now + dt) = some ce) :
    runTerraformLoop policy env p tag (threshold :: rest) i err w
      = (((w.after (.create (Context.WithTimeout w.now .base threshold) res) dt).after
            (.destroy (Context.WithTimeout (w.now + dt) .background finalTeardownTimeout)
              (.returned (p.Destroy
                (Context.WithTimeout (w.now + dt) .background finalTeardownTimeout)
                (w.now + dt)).2))
            (p.Destroy (Context.WithTimeout (w.now + dt) .background finalTeardownTimeout)
              (w.now + dt)).1),
         ⟨none, none, trace.NewAggregate [some (Error.interrupted ce res),
            trace.Wrap (p.Destroy
              (Context.WithTimeout (w.now + dt) .background finalTeardownTimeout)
              (w.now + dt)).2]⟩) := by
  rw [runTerraformLoop]
  simp only [hc, World.after, hctx]

/-- An attempt that returns nil with the attempt context live. -/
theorem runTerraformLoop_created (policy : ProvisionerPolicy) (env : TerraformEnv)
    (p : Provisioner) (tag : String) (threshold : Nat) (rest : List Nat) (i : Nat)
    (err : Option Error) (w : World) (dt : Nat)
    (hc : p.Create i (Context.WithTimeout w.now .base threshold) w.now = (dt, none))
    (hctx : Context.Err env.baseDone (Context.WithTimeout w.now .base threshold)
      (w.now + dt) = none) :
    runTerraformLoop policy env p tag (threshold :: rest) i err w
      = ({ now := w.now + dt,
           ledger := (resourceAllocated policy env.disk tag w.ledger).1,
           calls := w.calls ++ [.create (Context.WithTimeout w.now .base threshold) none,
             .resourceAllocated tag (resourceAllocated policy env.disk tag w.ledger).2] },
         ⟨some p.Nodes, some p.Destroy, none⟩) := by
  rw [runTerraformLoop]
  simp [hc, World.after, hctx]

/-- An attempt that returns an error with the attempt context live: the loop goes on. -/
theorem runTerraformLoop_retry (policy : ProvisionerPolicy) (env : TerraformEnv)
    (p : Provisioner) (tag : String) (threshold : Nat) (rest : List Nat) (i : Nat)
    (err : Option Error) (w : World) (dt : Nat) (e : Error)
    (hc : p.Create i (Context.WithTimeout w.now .base threshold) w.now = (dt, some e))
    (hctx : Context.Err env.baseDone (Context.WithTimeout w.now .base threshold)
      (w.now + dt) = none) :
    runTerraformLoop policy env p tag (threshold :: rest) i err w
      = runTerraformLoop policy env p tag rest (i + 1) (some e)
          (w.after (.create (Context.WithTimeout w.now .base threshold) (some e)) dt) := by
  rw [runTerraformLoop]
  simp only [hc, World.after, hctx]

/-! ## The provisioning loop under cancellation of the outer context -/

/-- A context with a deadline below the outer context is done once the outer context is. -/
theorem Context.Err_deadline_of_base (baseDone : Option (Nat × CtxError)) (expiry now : Nat)
    (e : CtxError) (h : Context.Err baseDone .base now = some e) :
    ∃ ce, Context.Err baseDone (.deadline .base expiry) now = some ce := by
  rcases baseDone with _ | ⟨t, e1⟩
  · simp [Context.Err, Context.doneAt] at h
  · have ht : t ≤ now := by
      by_contra hlt
      simp [Context.Err, Context.doneAt, hlt] at h
    by_cases hte : t ≤ expiry
    · exact ⟨e1, by simp [Context.Err, Context.doneAt, hte, ht]⟩
    · have : expiry ≤ now := by omega
      exact ⟨.deadlineExceeded, by simp [Context.Err, Context.doneAt, hte, this]⟩

/-- The aggregate of a non-nil error and one more error. -/
theorem trace.NewAggregate_cons (a : Error) (x : Option Error) :
    trace.NewAggregate [some a, x] = some (Error.aggregate (a :: x.toList)) := by
  cases x <;> rfl

/-- An attempt after which the outer context is done, at any place in the loop: the
loop ends there with `Destroy` under the teardown context. -/
theorem runTerraformLoop_outer_interrupted (policy : ProvisionerPolicy) (env : TerraformEnv)
    (p : Provisioner) (tag : String) (threshold : Nat) (rest : List Nat) (i : Nat)
    (err : Option Error) (w : World) (dt : Nat) (res : Option Error) (e : CtxError)
    (hc : p.Create i (Context.WithTimeout w.now .base threshold) w.now = (dt, res))
    (hbase : Context.Err env.baseDone .base (w.now + dt) = some e) :
    (runTerraformLoop policy env p tag (threshold :: rest) i err w).1.calls
      = w.calls ++ [.create (Context.WithTimeout w.now .base threshold) res,
          .destroy (Context.WithTimeout (w.now + dt) .background finalTeardownTimeout)
            (.returned (p.Destroy
              (Context.WithTimeout (w.now + dt) .background finalTeardownTimeout)
              (w.now + dt)).2)] ∧
    (runTerraformLoop policy env p tag (threshold :: rest) i err w).1.ledger = w.ledger ∧
    (runTerraformLoop policy env p tag (threshold :: rest) i err w).2.nodes = none ∧
    (runTerraformLoop policy env p tag (threshold :: rest) i err w).2.destroy.isNone = true ∧
    ∃ ce, Context.Err env.baseDone (Context.WithTimeout w.now .base threshold) (w.now + dt)
        = some ce ∧
      (runTerraformLoop policy env p tag (threshold :: rest) i err w).2.err
        = some (Error.aggregate (Error.interrupted ce res ::
            ((p.Destroy (Context.WithTimeout (w.now + dt) .background finalTeardownTimeout)
              (w.now + dt)).2.map Error.wrap).toList)) := by
  obtain ⟨ce, hce⟩ := Context.Err_deadline_of_base env.baseDone (w.now + threshold)
    (w.now + dt) e hbase
  rw [runTerraformLoop_interrupted policy env p tag threshold rest i err w dt res ce hc hce]
  refine ⟨by simp [World.after], rfl, rfl, rfl, ce, hce, ?_⟩
  exact trace.NewAggregate_cons _ _

/-- The function `runTerraform` once `terraform.New` has returned the provisioner. -/
theorem runTerraform_ok (policy : ProvisionerPolicy) (env : TerraformEnv) (p : Provisioner)
    (tag : String) (w : World) (hnew : env.New = .ok p) :
    runTerraform policy env tag w
      = runTerraformLoop policy env p tag [Minute * 15, Minute * 10] 0 none w := by
  simp [runTerraform, hnew, thresholds]

/-- C11: when the outer context is found cancelled or expired after a creation
attempt, `runTerraform` stops there.  After the first attempt (1), and after the
second attempt that follows a failed first one (2): no further `Create` is called,
`Destroy` is called exactly once, with `context.WithTimeout(context.Background(),
finalTeardownTimeout)` and not with the outer context, `resourceAllocated` is not
called and the ledger is unchanged, the nodes and the destroy function are nil, and
the error is the aggregate of the interruption error and, when `Destroy` returned an
error, that error wrapped. -/
theorem runTerraform_outer_interrupted (policy : ProvisionerPolicy) (env : TerraformEnv)
    (p : Provisioner) (tag : String) (w : World) (hnew : env.New = .ok p) :
    (∀ (dt0 : Nat) (res0 : Option Error) (e : CtxError),
      p.Create 0 (Context.WithTimeout w.now .base (Minute * 15)) w.now = (dt0, res0) →
      Context.Err env.baseDone .base (w.now + dt0) = some e →
      (runTerraform policy env tag w).1.since w
        = [.create (Context.WithTimeout w.now .base (Minute * 15)) res0,
            .destroy (Context.WithTimeout (w.now + dt0) .background finalTeardownTimeout)
              (.returned (p.Destroy
                (Context.WithTimeout (w.now + dt0) .background finalTeardownTimeout)
                (w.now + dt0)).2)] ∧
      createCount ((runTerraform policy env tag w).1.since w) = 1 ∧
      destroyCount ((runTerraform policy env tag w).1.since w) = 1 ∧
      resourceAllocatedCount ((runTerraform policy env tag w).1.since w) = 0 ∧
      (Context.WithTimeout (w.now + dt0) .background finalTeardownTimeout).fromBackground
        = true ∧
      (runTerraform policy env tag w).1.ledger = w.ledger ∧
      (runTerraform policy env tag w).2.nodes = none ∧
      (runTerraform policy env tag w).2.destroy.isNone = true ∧
      ∃ ce, (runTerraform policy env tag w).2.err
        = some (Error.aggregate (Error.interrupted ce res0 ::
            ((p.Destroy (Context.WithTimeout (w.now + dt0) .background finalTeardownTimeout)
              (w.now + dt0)).2.map Error.wrap).toList))) ∧
    (∀ (dt0 : Nat) (e0 : Error) (dt1 : Nat) (res1 : Option Error) (e : CtxError),
      p.Create 0 (Context.WithTimeout w.now .base (Minute * 15)) w.now = (dt0, some e0) →
      Context.Err env.baseDone (Context.WithTimeout w.now .base (Minute * 15)) (w.now + dt0)
        = none →
      p.Create 1 (Context.WithTimeout (w.now + dt0) .base (Minute * 10)) (w.now + dt0)
        = (dt1, res1) →
      Context.Err env.baseDone .base (w.now + dt0 + dt1) = some e →
      (runTerraform policy env tag w).1.since w
        = [.create (Context.WithTimeout w.now .base (Minute * 15)) (some e0),
            .create (Context.WithTimeout (w.now + dt0) .base (Minute * 10)) res1,
            .destroy
              (Context.WithTimeout (w.now + dt0 + dt1) .background finalTeardownTimeout)
              (.returned (p.Destroy
                (Context.WithTimeout (w.now + dt0 + dt1) .background finalTeardownTimeout)
                (w.now + dt0 + dt1)).2)] ∧
      createCount ((runTerraform policy env tag w).1.since w) = 2 ∧
      destroyCount ((runTerraform policy env tag w).1.since w) = 1 ∧
      resourceAllocatedCount ((runTerraform policy env tag w).1.since w) = 0 ∧
      (Context.WithTimeout (w.now + dt0 + dt1) .background
        finalTeardownTimeout).fromBackground = true ∧
      (runTerraform policy env tag w).1.ledger = w.ledger ∧
      (runTerraform policy env tag w).2.nodes = none ∧
      (runTerraform policy env tag w).2.destroy.isNone = true ∧
      ∃ ce, (runTerraform policy env tag w).2.err
        = some (Error.aggregate (Error.interrupted ce res1 ::
            ((p.Destroy
              (Context.WithTimeout (w.now + dt0 + dt1) .background finalTeardownTimeout)
              (w.now + dt0 + dt1)).2.map Error.wrap).toList))) := by
  rw [runTerraform_ok policy env p tag w hnew]
  refine ⟨?_, ?_⟩
  · intro dt0 res0 e hc0 hbase
    obtain ⟨hcalls, hledger, hnodes, hdestroy, ce, _, herr⟩ :=
      runTerraformLoop_outer_interrupted policy env p tag (Minute * 15) [Minute * 10] 0 none
        w dt0 res0 e hc0 hbase
    have hsince := World.since_calls w _ _ hcalls
    refine ⟨hsince, ?_, ?_, ?_, rfl, hledger, hnodes, hdestroy, ce, herr⟩
    · rw [hsince]
      rfl
    · rw [hsince]
      rfl
    · rw [hsince]
      rfl
  · intro dt0 e0 dt1 res1 e hc0 hlive0 hc1 hbase
    rw [runTerraformLoop_retry policy env p tag (Minute * 15) [Minute * 10] 0 none w dt0 e0
      hc0 hlive0]
    obtain ⟨hcalls, hledger, hnodes, hdestroy, ce, _, herr⟩ :=
      runTerraformLoop_outer_interrupted policy env p tag (Minute * 10) [] 1 (some e0)
        (w.after (.create (Context.WithTimeout w.now .base (Minute * 15)) (some e0)) dt0)
        dt1 res1 e hc1 hbase
    have hsince := World.since_calls w _
      [.create (Context.WithTimeout w.now .base (Minute * 15)) (some e0),
        .create (Context.WithTimeout (w.now + dt0) .base (Minute * 10)) res1,
        .destroy
          (Context.WithTimeout (w.now + dt0 + dt1) .background finalTeardownTimeout)
          (.returned (p.Destroy
            (Context.WithTimeout (w.now + dt0 + dt1) .background finalTeardownTimeout)
            (w.now + dt0 + dt1)).2)]
      (by rw [hcalls]; simp [World.after])
    refine ⟨hsince, ?_, ?_, ?_, rfl, hledger, hnodes, hdestroy, ce, herr⟩
    · rw [hsince]
      rfl
    · rw [hsince]
      rfl
    · rw [hsince]
      rfl

/-- C11 at a run whose outer context is cancelled three minutes into the first
attempt: `Create` comes back a second later with an error, `Destroy` is called once
under the teardown context and fails too, and both errors are in the aggregate. -/
theorem runTerraform_outer_interrupted_witness :
    Context.Err (some (Minute * 3, .canceled)) .base (0 + (Minute * 3 + Second))
      = some .canceled ∧
    createCount ((runTerraform ⟨true, true, false, ""⟩
        ⟨.ok ⟨fun _ _ _ => (Minute * 3 + Second, some (.external 1)),
          fun _ _ => (Minute, some (.external 2)), ["n1"]⟩,
          some (Minute * 3, .canceled), DiskEnv.good⟩
        "t1" ⟨0, ⟨[], none⟩, []⟩).1.since ⟨0, ⟨[], none⟩, []⟩) = 1 ∧
    destroyCount ((runTerraform ⟨true, true, false, ""⟩
        ⟨.ok ⟨fun _ _ _ => (Minute * 3 + Second, some (.external 1)),
          fun _ _ => (Minute, some (.external 2)), ["n1"]⟩,
          some (Minute * 3, .canceled), DiskEnv.good⟩
        "t1" ⟨0, ⟨[], none⟩, []⟩).1.since ⟨0, ⟨[], none⟩, []⟩) = 1 ∧
    (runTerraform ⟨true, true, false, ""⟩
        ⟨.ok ⟨fun _ _ _ => (Minute * 3 + Second, some (.external 1)),
          fun _ _ => (Minute, some (.external 2)), ["n1"]⟩,
          some (Minute * 3, .canceled), DiskEnv.good⟩
        "t1" ⟨0, ⟨[], none⟩, []⟩).1.ledger = ⟨[], none⟩ ∧
    (runTerraform ⟨true, true, false, ""⟩
        ⟨.ok ⟨fun _ _ _ => (Minute * 3 + Second, some (.external 1)),
          fun _ _ => (Minute, some (.external 2)), ["n1"]⟩,
          some (Minute * 3, .canceled), DiskEnv.good⟩
        "t1" ⟨0, ⟨[], none⟩, []⟩).2.err
      = some (.aggregate [.interrupted .canceled (some (.external 1)),
          .wrap (.external 2)]) :=
  have h := (runTerraform_outer_interrupted ⟨true, true, false, ""⟩
    ⟨.ok ⟨fun _ _ _ => (Minute * 3 + Second, some (.external 1)),
      fun _ _ => (Minute, some (.external 2)), ["n1"]⟩,
      some (Minute * 3, .canceled), DiskEnv.good⟩
    ⟨fun _ _ _ => (Minute * 3 + Second, some (.external 1)),
      fun _ _ => (Minute, some (.external 2)), ["n1"]⟩
    "t1" ⟨0, ⟨[], none⟩, []⟩ rfl).1 (Minute * 3 + Second) (some (.external 1)) .canceled
    rfl rfl
  ⟨rfl, h.2.1, h.2.2.1, h.2.2.2.2.2.1, rfl⟩

/-! ## The shape of a run of the provisioning loop -/

/-- What a run of the loop looks like, by induction on the thresholds still to try:
it calls `Create` at most once per threshold, and either ends in success, with the
one call of `resourceAllocated` right after a `Create` that returned nil, or ends in
an error without any call of `resourceAllocated`. -/
theorem runTerraformLoop_shape (policy : ProvisionerPolicy) (env : TerraformEnv)
    (p : Provisioner) (tag : String) (ths : List Nat) (i : Nat) (err : Option Error)
    (w : World) (hinv : ths = [] → err ≠ none) :
    ∃ l, (runTerraformLoop policy env p tag ths i err w).1.calls = w.calls ++ l ∧
      createCount l ≤ ths.length ∧
      (((runTerraformLoop policy env p tag ths i err w).2.err = none ∧
          (∃ pre ctx, l = pre ++ [.create ctx none,
              .resourceAllocated tag (resourceAllocated policy env.disk tag w.ledger).2] ∧
            resourceAllocatedCount pre = 0) ∧
          (runTerraformLoop policy env p tag ths i err w).1.ledger
            = (resourceAllocated policy env.disk tag w.ledger).1 ∧
          (runTerraformLoop policy env p tag ths i err w).2.nodes = some p.Nodes ∧
          (runTerraformLoop policy env p tag ths i err w).2.destroy.isSome = true) ∨
        ((runTerraformLoop policy env p tag ths i err w).2.err ≠ none ∧
          resourceAllocatedCount l = 0 ∧
          (runTerraformLoop policy env p tag ths i err w).1.ledger = w.ledger ∧
          (runTerraformLoop policy env p tag ths i err w).2.nodes = none ∧
          (runTerraformLoop policy env p tag ths i err w).2.destroy.isNone = true)) := by
  induction ths generalizing i err w with
  | nil =>
    rw [runTerraformLoop_exhausted]
    refine ⟨[.destroy .base (.returned (p.Destroy .base w.now).2)], by simp [World.after],
      by simp [createCount, Event.isCreate], Or.inr ⟨?_, rfl, rfl, rfl, rfl⟩⟩
    obtain ⟨e, he⟩ := Option.ne_none_iff_exists'.mp (hinv rfl)
    rw [he, trace.NewAggregate_cons]
    simp
  | cons threshold rest ih =>
    rcases hc : p.Create i (Context.WithTimeout w.now .base threshold) w.now with ⟨dt, res⟩
    cases hctx : Context.Err env.baseDone (Context.WithTimeout w.now .base threshold)
        (w.now + dt) with
    | some ce =>
      rw [runTerraformLoop_interrupted policy env p tag threshold rest i err w dt res ce hc
        hctx]
      refine ⟨[.create (Context.WithTimeout w.now .base threshold) res,
        .destroy (Context.WithTimeout (w.now + dt) .background finalTeardownTimeout)
          (.returned (p.Destroy
            (Context.WithTimeout (w.now + dt) .background finalTeardownTimeout)
            (w.now + dt)).2)], by simp [World.after],
        by simp [createCount, Event.isCreate, List.countP_cons],
        Or.inr ⟨?_, rfl, rfl, rfl, rfl⟩⟩
      rw [trace.NewAggregate_cons]
      simp
    | none =>
      cases res with
      | none =>
        rw [runTerraformLoop_created policy env p tag threshold rest i err w dt hc hctx]
        exact ⟨[.create (Context.WithTimeout w.now .base threshold) none,
          .resourceAllocated tag (resourceAllocated policy env.disk tag w.ledger).2], rfl,
          by simp [createCount, Event.isCreate, List.countP_cons],
          Or.inl ⟨rfl, ⟨[], _, rfl, rfl⟩, rfl, rfl, rfl⟩⟩
      | some e =>
        rw [runTerraformLoop_retry policy env p tag threshold rest i err w dt e hc hctx]
        obtain ⟨l, hcalls, hcount, hcase⟩ := ih (i + 1) (some e)
          (w.after (.create (Context.WithTimeout w.now .base threshold) (some e)) dt)
          (fun _ => by simp)
        refine ⟨.create (Context.WithTimeout w.now .base threshold) (some e) :: l,
          by rw [hcalls]; simp [World.after], ?_, ?_⟩
        · simp only [createCount] at hcount
          simp only [createCount, List.countP_cons, Event.isCreate, List.length_cons,
            if_true]
          omega
        · rcases hcase with ⟨herr, ⟨pre, ctx, hl, hpre⟩, hledger, hnodes, hdestroy⟩ |
            ⟨herr, hzero, hledger, hnodes, hdestroy⟩
          · refine Or.inl ⟨herr,
              ⟨.create (Context.WithTimeout w.now .base threshold) (some e) :: pre, ctx, ?_, ?_⟩,
              hledger, hnodes, hdestroy⟩
            · rw [hl]
              rfl
            · simpa [resourceAllocatedCount, List.countP_cons, Event.isResourceAllocated]
                using hpre
          · refine Or.inr ⟨herr, ?_, hledger, hnodes, hdestroy⟩
            simpa [resourceAllocatedCount, List.countP_cons, Event.isResourceAllocated]
              using hzero

/-! ## The provisioning loop when every attempt fails -/

/-- C12: `runTerraform` calls `Create` at most as often as there are thresholds, two
(1).  If both attempts return an error while the attempt context is still live (2),
it then calls `Destroy` exactly once, with the outer context, does not call
`resourceAllocated` and leaves the ledger unchanged, and returns nil nodes, a nil
destroy function and the aggregate of the last creation error and, when `Destroy`
returned an error, that error. -/
theorem runTerraform_attempts_exhausted (policy : ProvisionerPolicy) (env : TerraformEnv)
    (tag : String) (w : World) :
    (createCount ((runTerraform policy env tag w).1.since w) ≤ thresholds.length ∧
      thresholds.length = 2) ∧
    (∀ (p : Provisioner) (dt0 : Nat) (e0 : Error) (dt1 : Nat) (e1 : Error),
      env.New = .ok p →
      p.Create 0 (Context.WithTimeout w.now .base (Minute * 15)) w.now = (dt0, some e0) →
      Context.Err env.baseDone (Context.WithTimeout w.now .base (Minute * 15)) (w.now + dt0)
        = none →
      p.Create 1 (Context.WithTimeout (w.now + dt0) .base (Minute * 10)) (w.now + dt0)
        = (dt1, some e1) →
      Context.Err env.baseDone (Context.WithTimeout (w.now + dt0) .base (Minute * 10))
        (w.now + dt0 + dt1) = none →
      (runTerraform policy env tag w).1.since w
        = [.create (Context.WithTimeout w.now .base (Minute * 15)) (some e0),
            .create (Context.WithTimeout (w.now + dt0) .base (Minute * 10)) (some e1),
            .destroy .base (.returned (p.Destroy .base (w.now + dt0 + dt1)).2)] ∧
      createCount ((runTerraform policy env tag w).1.since w) = 2 ∧
      destroyCount ((runTerraform policy env tag w).1.since w) = 1 ∧
      resourceAllocatedCount ((runTerraform policy env tag w).1.since w) = 0 ∧
      (runTerraform policy env tag w).1.ledger = w.ledger ∧
      (runTerraform policy env tag w).2.nodes = none ∧
      (runTerraform policy env tag w).2.destroy.isNone = true ∧
      (runTerraform policy env tag w).2.err
        = some (Error.aggregate (e1 :: (p.Destroy .base (w.now + dt0 + dt1)).2.toList))) := by
  refine ⟨⟨?_, rfl⟩, ?_⟩
  · cases hnew : env.New with
    | error e =>
      have hr : runTerraform policy env tag w = (w, ⟨none, none, trace.Wrap (some e)⟩) := by
        simp [runTerraform, hnew]
      rw [hr]
      simp [World.since_self, createCount]
    | ok p =>
      rw [runTerraform_ok policy env p tag w hnew]
      obtain ⟨l, hcalls, hcount, _⟩ :=
        runTerraformLoop_shape policy env p tag [Minute * 15, Minute * 10] 0 none w
          (fun h => by cases h)
      rw [World.since_calls w _ l hcalls]
      exact hcount
  · intro p dt0 e0 dt1 e1 hnew hc0 hlive0 hc1 hlive1
    have hr : runTerraform policy env tag w
        = ({ now := w.now + dt0 + dt1 + (p.Destroy .base (w.now + dt0 + dt1)).1,
             ledger := w.ledger,
             calls := w.calls ++
              [.create (Context.WithTimeout w.now .base (Minute * 15)) (some e0),
                .create (Context.WithTimeout (w.now + dt0) .base (Minute * 10)) (some e1),
                .destroy .base (.returned (p.Destroy .base (w.now + dt0 + dt1)).2)] },
           ⟨none, none,
            trace.NewAggregate [some e1, (p.Destroy .base (w.now + dt0 + dt1)).2]⟩) := by
      rw [runTerraform_ok policy env p tag w hnew,
        runTerraformLoop_retry policy env p tag (Minute * 15) [Minute * 10] 0 none w dt0 e0
          hc0 hlive0,
        runTerraformLoop_retry policy env p tag (Minute * 10) [] (0 + 1) (some e0)
          (w.after (.create (Context.WithTimeout w.now .base (Minute * 15)) (some e0)) dt0)
          dt1 e1 hc1 hlive1,
        runTerraformLoop_exhausted]
      simp [World.after]
    rw [hr]
    have hsince : World.since
        { now := w.now + dt0 + dt1 + (p.Destroy .base (w.now + dt0 + dt1)).1,
          ledger := w.ledger,
          calls := w.calls ++
            [.create (Context.WithTimeout w.now .base (Minute * 15)) (some e0),
              .create (Context.WithTimeout (w.now + dt0) .base (Minute * 10)) (some e1),
              .destroy .base (.returned (p.Destroy .base (w.now + dt0 + dt1)).2)] } w
        = [.create (Context.WithTimeout w.now .base (Minute * 15)) (some e0),
            .create (Context.WithTimeout (w.now + dt0) .base (Minute * 10)) (some e1),
            .destroy .base (.returned (p.Destroy .base (w.now + dt0 + dt1)).2)] :=
      World.since_calls w _ _ rfl
    refine ⟨hsince, ?_, ?_, ?_, rfl, rfl, rfl, trace.NewAggregate_cons _ _⟩
    · rw [hsince]
      rfl
    · rw [hsince]
      rfl
    · rw [hsince]
      rfl

/-! ## Case analysis of the teardown closure -/

/-- The ways through the destroy block under the deferred `recover`: the gate is
closed, or destroy is called and panics, returns an error, or returns nil. -/
theorem recovered_destroyBlock_cases (policy : ProvisionerPolicy) (c : TestContext)
    (tag : String) (destroy : Context → Nat → Nat × CallOutcome) (d : DiskEnv)
    (ctx : Context) (w : World) (P : World × CallOutcome → Prop)
    (hclosed : (policy.DestroyOnSuccess = false ∨
        (c.Failed = true ∧ policy.DestroyOnFailure = false)) → P (w, .returned none))
    (hpanic : ¬ (policy.DestroyOnSuccess = false ∨
        (c.Failed = true ∧ policy.DestroyOnFailure = false)) →
      ∀ dt, destroy ctx w.now = (dt, .panicked) →
        P (w.after (.destroy ctx .panicked) dt, .returned none))
    (hfailed : ¬ (policy.DestroyOnSuccess = false ∨
        (c.Failed = true ∧ policy.DestroyOnFailure = false)) →
      ∀ dt e, destroy ctx w.now = (dt, .returned (some e)) →
        P (w.after (.destroy ctx (.returned (some e))) dt, .returned (some (Error.wrap e))))
    (hdone : ¬ (policy.DestroyOnSuccess = false ∨
        (c.Failed = true ∧ policy.DestroyOnFailure = false)) →
      ∀ dt, destroy ctx w.now = (dt, .returned none) →
        P ({ now := w.now + dt,
             ledger := (resourceDestroyed policy d tag w.ledger).1,
             calls := w.calls ++ [.destroy ctx (.returned none),
               .resourceDestroyed tag (resourceDestroyed policy d tag w.ledger).2] },
           .returned none)) :
    P (recovered (destroyBlock policy c tag destroy d ctx w)) := by
  by_cases hgate : policy.DestroyOnSuccess = false ∨
      (c.Failed = true ∧ policy.DestroyOnFailure = false)
  · rw [destroyBlock_closed policy c tag destroy d ctx w hgate]
    exact hclosed hgate
  · rcases hd : destroy ctx w.now with ⟨dt, ⟨_ | e⟩ | _⟩
    · rw [destroyBlock_done policy c tag destroy d ctx w hgate dt hd]
      exact hdone hgate dt hd
    · rw [destroyBlock_failed policy c tag destroy d ctx w hgate dt e hd]
      exact hfailed hgate dt e hd
    · rw [destroyBlock_panicked policy c tag destroy d ctx w hgate dt hd]
      exact hpanic hgate dt hd

/-- The ways through the closure up to the destroy block: an interrupted run that is
left alone, an interrupted run that goes on with a fresh context, a live run without
log collection, with a log collection that returns, and with one that panics. -/
theorem wrapDestroyFn_cases (policy : ProvisionerPolicy) (c : TestContext)
    (tag : String) (nodes : List Node) (destroy : Context → Nat → Nat × CallOutcome)
    (d : DiskEnv) (w : World) (P : World × CallOutcome → Prop)
    (hskip : ∀ e, Context.Err c.ctxDone .base w.now = some e →
      policy.DestroyOnFailure = false →
        P (w, .returned (some (Error.wrap (Error.context e)))))
    (hfresh : ∀ e, Context.Err c.ctxDone .base w.now = some e →
      policy.DestroyOnFailure = true →
        P (recovered (destroyBlock policy c tag destroy d
          (Context.WithTimeout w.now .background finalTeardownTimeout) w)))
    (hquiet : Context.Err c.ctxDone .base w.now = none →
      ¬ (c.Failed = true ∨ policy.AlwaysCollectLogs = true) →
        P (recovered (destroyBlock policy c tag destroy d .base w)))
    (hlogs : Context.Err c.ctxDone .base w.now = none →
      (c.Failed = true ∨ policy.AlwaysCollectLogs = true) →
      ∀ dt err, c.CollectLogs "postmortem" nodes w.now = (dt, .returned err) →
        P (recovered (destroyBlock policy c tag destroy d .base
          (w.after (.collectLogs "postmortem" nodes (.returned err)) dt))))
    (hlogpanic : Context.Err c.ctxDone .base w.now = none →
      (c.Failed = true ∨ policy.AlwaysCollectLogs = true) →
      ∀ dt, c.CollectLogs "postmortem" nodes w.now = (dt, .panicked) →
        P (w.after (.collectLogs "postmortem" nodes .panicked) dt, .returned none)) :
    P (wrapDestroyFn policy c tag nodes destroy d w) := by
  cases hctx : Context.Err c.ctxDone .base w.now with
  | some e =>
    cases hpol : policy.DestroyOnFailure with
    | false =>
      rw [wrapDestroyFn_skipped policy c tag nodes destroy d w e hctx hpol]
      exact hskip e hctx hpol
    | true =>
      rw [wrapDestroyFn_eq_recovered,
        wrapDestroyFnBody_interrupted policy c tag nodes destroy d w e hctx hpol]
      exact hfresh e hctx hpol
  | none =>
    by_cases hlog : c.Failed = true ∨ policy.AlwaysCollectLogs = true
    · rcases hl : c.CollectLogs "postmortem" nodes w.now with ⟨dt, err | _⟩
      · rw [wrapDestroyFn_eq_recovered,
          wrapDestroyFnBody_live_logs policy c tag nodes destroy d w hctx hlog dt err hl]
        exact hlogs hctx hlog dt err hl
      · rw [wrapDestroyFn_eq_recovered,
          wrapDestroyFnBody_live_logs_panicked policy c tag nodes destroy d w hctx hlog dt hl]
        exact hlogpanic hctx hlog dt hl
    · rw [wrapDestroyFn_eq_recovered,
        wrapDestroyFnBody_live_quiet policy c tag nodes destroy d w hctx hlog]
      exact hquiet hctx hlog

/-! ## The teardown closure: panics -/

/-- C14: the closure never panics, it always returns (1).  When a call it made, of
destroy or of `CollectLogs`, panicked, the closure returns nil, the ledger is as it
was before the closure ran, and so the tag is still registered if it was (2). -/
theorem wrapDestroyFn_panic_recovered (policy : ProvisionerPolicy) (c : TestContext)
    (tag : String) (nodes : List Node) (destroy : Context → Nat → Nat × CallOutcome)
    (d : DiskEnv) (w : World) :
    (∃ err, (wrapDestroyFn policy c tag nodes destroy d w).2 = .returned err) ∧
    (∀ ev ∈ (wrapDestroyFn policy c tag nodes destroy d w).1.since w, ev.isPanic = true →
      (wrapDestroyFn policy c tag nodes destroy d w).2 = .returned none ∧
      (wrapDestroyFn policy c tag nodes destroy d w).1.ledger = w.ledger ∧
      (tag ∈ w.ledger.tags →
        tag ∈ (wrapDestroyFn policy c tag nodes destroy d w).1.ledger.tags)) := by
  refine ⟨?_, ?_⟩
  · rw [wrapDestroyFn_eq_recovered]
    rcases wrapDestroyFnBody policy c tag nodes destroy d w with ⟨w1, err | _⟩
    · exact ⟨err, rfl⟩
    · exact ⟨none, rfl⟩
  · have hblock : ∀ (ctx : Context) (w1 : World) (pre : List Event),
        w1.calls = w.calls ++ pre → (∀ ev ∈ pre, ev.isPanic = false) →
        w1.ledger = w.ledger →
        ∀ ev ∈ (recovered (destroyBlock policy c tag destroy d ctx w1)).1.since w,
          ev.isPanic = true →
          (recovered (destroyBlock policy c tag destroy d ctx w1)).2 = .returned none ∧
          (recovered (destroyBlock policy c tag destroy d ctx w1)).1.ledger = w.ledger ∧
          (tag ∈ w.ledger.tags →
            tag ∈ (recovered (destroyBlock policy c tag destroy d ctx w1)).1.ledger.tags) := by
      intro ctx w1 pre hcalls hpre hledger
      refine recovered_destroyBlock_cases policy c tag destroy d ctx w1
        (fun r => ∀ ev ∈ r.1.since w, ev.isPanic = true →
          r.2 = .returned none ∧ r.1.ledger = w.ledger ∧
          (tag ∈ w.ledger.tags → tag ∈ r.1.ledger.tags)) ?_ ?_ ?_ ?_
      · intro _ ev _ _
        exact ⟨rfl, hledger, fun h => hledger ▸ h⟩
      · intro _ dt _ ev _ _
        have hl : (w1.after (.destroy ctx .panicked) dt).ledger = w.ledger := hledger
        exact ⟨rfl, hl, fun h => hl ▸ h⟩
      · intro _ dt e _ ev hev hp
        simp only [World.since, World.after, hcalls, List.append_assoc,
          List.drop_left, List.mem_append, List.mem_singleton] at hev
        rcases hev with hev | hev
        · rw [hpre ev hev] at hp
          cases hp
        · rw [hev] at hp
          cases hp
      · intro _ dt _ ev hev hp
        simp only [World.since, hcalls, List.append_assoc, List.drop_left, List.mem_append,
          List.mem_cons, List.mem_singleton, List.not_mem_nil, or_false] at hev
        rcases hev with hev | hev | hev
        · rw [hpre ev hev] at hp
          cases hp
        · rw [hev] at hp
          cases hp
        · rw [hev] at hp
          cases hp
    refine wrapDestroyFn_cases policy c tag nodes destroy d w
      (fun r => ∀ ev ∈ r.1.since w, ev.isPanic = true →
        r.2 = .returned none ∧ r.1.ledger = w.ledger ∧
        (tag ∈ w.ledger.tags → tag ∈ r.1.ledger.tags)) ?_ ?_ ?_ ?_ ?_
    · intro e _ _ ev hev
      simp [World.since_self] at hev
    · intro e _ _
      exact hblock _ w [] (by simp) (by simp) rfl
    · intro _ _
      exact hblock _ w [] (by simp) (by simp) rfl
    · intro _ _ dt err _
      exact hblock _ _ [.collectLogs "postmortem" nodes (.returned err)]
        (by simp [World.after]) (by simp [Event.isPanic]) rfl
    · intro _ _ dt _ ev _ _
      exact ⟨rfl, rfl, id⟩

/-- C14 at a destroy that panics for a registered tag: the panicking call is in the
trace, the closure returns nil, and the tag `t1` is still in the ledger. -/
theorem wrapDestroyFn_panic_recovered_witness :
    Event.destroy .base .panicked ∈
      (wrapDestroyFn ⟨true, true, false, ""⟩ ⟨false, none, fun _ _ _ => (1, .returned none)⟩
        "t1" ["n1"] (fun _ _ => (2, .panicked)) DiskEnv.good
        ⟨7, ⟨["t1"], none⟩, []⟩).1.since ⟨7, ⟨["t1"], none⟩, []⟩ ∧
    (wrapDestroyFn ⟨true, true, false, ""⟩ ⟨false, none, fun _ _ _ => (1, .returned none)⟩
        "t1" ["n1"] (fun _ _ => (2, .panicked)) DiskEnv.good
        ⟨7, ⟨["t1"], none⟩, []⟩).2 = .returned none ∧
    "t1" ∈ (wrapDestroyFn ⟨true, true, false, ""⟩
        ⟨false, none, fun _ _ _ => (1, .returned none)⟩
        "t1" ["n1"] (fun _ _ => (2, .panicked)) DiskEnv.good
        ⟨7, ⟨["t1"], none⟩, []⟩).1.ledger.tags :=
  have hmem : Event.destroy .base .panicked ∈
      (wrapDestroyFn ⟨true, true, false, ""⟩ ⟨false, none, fun _ _ _ => (1, .returned none)⟩
        "t1" ["n1"] (fun _ _ => (2, .panicked)) DiskEnv.good
        ⟨7, ⟨["t1"], none⟩, []⟩).1.since ⟨7, ⟨["t1"], none⟩, []⟩ :=
    List.mem_cons_self _ _
  have h := (wrapDestroyFn_panic_recovered ⟨true, true, false, ""⟩
    ⟨false, none, fun _ _ _ => (1, .returned none)⟩
    "t1" ["n1"] (fun _ _ => (2, .panicked)) DiskEnv.good ⟨7, ⟨["t1"], none⟩, []⟩).2
    _ hmem rfl
  ⟨hmem, h.1, h.2.2 (List.mem_cons_self _ _)⟩

/-! ## The teardown closure: when destroy is called -/

/-- How often the closure calls destroy: at most once, only under the condition on
policy, test outcome and run context, and then once when the log collection, if one
takes place, returns. -/
theorem wrapDestroyFn_destroyCount_facts (policy : ProvisionerPolicy) (c : TestContext)
    (tag : String) (nodes : List Node) (destroy : Context → Nat → Nat × CallOutcome)
    (d : DiskEnv) (w : World) :
    destroyCount ((wrapDestroyFn policy c tag nodes destroy d w).1.since w) ≤ 1 ∧
    (destroyCount ((wrapDestroyFn policy c tag nodes destroy d w).1.since w) = 1 →
      policy.DestroyOnSuccess = true ∧
      (c.Failed = false ∨ policy.DestroyOnFailure = true) ∧
      (Context.Err c.ctxDone .base w.now = none ∨ policy.DestroyOnFailure = true)) ∧
    (policy.DestroyOnSuccess = false →
      destroyCount ((wrapDestroyFn policy c tag nodes destroy d w).1.since w) = 0) ∧
    (policy.DestroyOnSuccess = true →
      (c.Failed = false ∨ policy.DestroyOnFailure = true) →
      (Context.Err c.ctxDone .base w.now = none ∨ policy.DestroyOnFailure = true) →
      (Context.Err c.ctxDone .base w.now = none →
        (c.Failed = true ∨ policy.AlwaysCollectLogs = true) →
        (c.CollectLogs "postmortem" nodes w.now).2 ≠ .panicked) →
      destroyCount ((wrapDestroyFn policy c tag nodes destroy d w).1.since w) = 1) := by
  -- the number of destroy calls of the destroy block is decided by its gate
  have hblock : ∀ (ctx : Context) (w1 : World) (pre : List Event),
      w1.calls = w.calls ++ pre → (∀ ev ∈ pre, ev.isDestroy = false) →
      w1.ledger = w.ledger →
      destroyCount ((recovered (destroyBlock policy c tag destroy d ctx w1)).1.since w)
        = if policy.DestroyOnSuccess = false ∨
            (c.Failed = true ∧ policy.DestroyOnFailure = false) then 0 else 1 := by
    intro ctx w1 pre hcalls hpre hledger
    exact (destroyBlock_outcome policy c tag destroy d ctx w w1 pre hcalls hpre hledger).2.2
  refine wrapDestroyFn_cases policy c tag nodes destroy d w
    (fun r => destroyCount (r.1.since w) ≤ 1 ∧
      (destroyCount (r.1.since w) = 1 →
        policy.DestroyOnSuccess = true ∧
        (c.Failed = false ∨ policy.DestroyOnFailure = true) ∧
        (Context.Err c.ctxDone .base w.now = none ∨ policy.DestroyOnFailure = true)) ∧
      (policy.DestroyOnSuccess = false → destroyCount (r.1.since w) = 0) ∧
      (policy.DestroyOnSuccess = true →
        (c.Failed = false ∨ policy.DestroyOnFailure = true) →
        (Context.Err c.ctxDone .base w.now = none ∨ policy.DestroyOnFailure = true) →
        (Context.Err c.ctxDone .base w.now = none →
          (c.Failed = true ∨ policy.AlwaysCollectLogs = true) →
          (c.CollectLogs "postmortem" nodes w.now).2 ≠ .panicked) →
        destroyCount (r.1.since w) = 1)) ?_ ?_ ?_ ?_ ?_
  · intro e hctx hpol
    have hzero : destroyCount (World.since w w) = 0 := by
      simp [World.since_self, destroyCount]
    simp only [hzero, hctx, hpol]
    simp
  · intro e hctx hpol
    simp only [hblock _ w [] (by simp) (by simp) rfl, hctx, hpol]
    cases policy.DestroyOnSuccess <;> simp
  · intro hctx hlog
    simp only [hblock _ w [] (by simp) (by simp) rfl, hctx]
    cases policy.DestroyOnSuccess <;> cases policy.DestroyOnFailure <;> cases c.Failed <;>
      simp
  · intro hctx hlog dt err hl
    simp only [hblock .base (w.after (.collectLogs "postmortem" nodes (.returned err)) dt)
      [.collectLogs "postmortem" nodes (.returned err)]
      (by simp [World.after]) (by simp [Event.isDestroy]) rfl, hctx, hl]
    cases policy.DestroyOnSuccess <;> cases policy.DestroyOnFailure <;> cases c.Failed <;>
      simp
  · intro hctx hlog dt hl
    have hzero : destroyCount
        (World.since (w.after (.collectLogs "postmortem" nodes .panicked) dt) w) = 0 := by
      simp [World.since, World.after, destroyCount, Event.isDestroy]
    simp only [hzero, hctx, hl]
    simp [hlog]

/-- C17, amended: the closure calls destroy at most once (1); it calls it only when
`DestroyOnSuccess` is set and (the test passed or `DestroyOnFailure` is set) and
(the run context is live or `DestroyOnFailure` is set) (2), so never when
`DestroyOnSuccess` is unset (3); under that condition it does call destroy exactly
once, provided the log collection, if one takes place, returns (4); and when the log
collection of a live run panics instead, destroy is not called (5). -/
theorem wrapDestroyFn_destroy_iff (policy : ProvisionerPolicy) (c : TestContext)
    (tag : String) (nodes : List Node) (destroy : Context → Nat → Nat × CallOutcome)
    (d : DiskEnv) (w : World) :
    destroyCount ((wrapDestroyFn policy c tag nodes destroy d w).1.since w) ≤ 1 ∧
    (destroyCount ((wrapDestroyFn policy c tag nodes destroy d w).1.since w) = 1 →
      policy.DestroyOnSuccess = true ∧
      (c.Failed = false ∨ policy.DestroyOnFailure = true) ∧
      (Context.Err c.ctxDone .base w.now = none ∨ policy.DestroyOnFailure = true)) ∧
    (policy.DestroyOnSuccess = false →
      destroyCount ((wrapDestroyFn policy c tag nodes destroy d w).1.since w) = 0) ∧
    (policy.DestroyOnSuccess = true →
      (c.Failed = false ∨ policy.DestroyOnFailure = true) →
      (Context.Err c.ctxDone .base w.now = none ∨ policy.DestroyOnFailure = true) →
      (Context.Err c.ctxDone .base w.now = none →
        (c.Failed = true ∨ policy.AlwaysCollectLogs = true) →
        (c.CollectLogs "postmortem" nodes w.now).2 ≠ .panicked) →
      destroyCount ((wrapDestroyFn policy c tag nodes destroy d w).1.since w) = 1) ∧
    (Context.Err c.ctxDone .base w.now = none →
      (c.Failed = true ∨ policy.AlwaysCollectLogs = true) →
      (c.CollectLogs "postmortem" nodes w.now).2 = .panicked →
      destroyCount ((wrapDestroyFn policy c tag nodes destroy d w).1.since w) = 0) := by
  obtain ⟨h1, h2, h3, h4⟩ := wrapDestroyFn_destroyCount_facts policy c tag nodes destroy d w
  refine ⟨h1, h2, h3, h4, ?_⟩
  intro hctx hlog hp
  rw [wrapDestroyFn_logs_panicked policy c tag nodes destroy d w hctx hlog hp]
  simp [World.since, World.after, destroyCount, Event.isDestroy]

/-- C17 as first stated fails: with `DestroyOnSuccess` and `DestroyOnFailure` set, a
failed test and a live run context, the condition of the claim holds, but a
`CollectLogs` that panics is recovered by the deferred function and the closure
returns nil without calling destroy.  So calling destroy is not equivalent to the
condition on policy, test outcome and context state alone. -/
theorem wrapDestroyFn_failed_test_collector_panics :
    Context.Err none .base 7 = none ∧
    (wrapDestroyFn ⟨true, true, false, ""⟩ ⟨true, none, fun _ _ _ => (1, .panicked)⟩
        "t1" ["n1"] (fun _ _ => (2, .returned none)) DiskEnv.good
        ⟨7, ⟨["t1"], none⟩, []⟩).1.calls
      = [.collectLogs "postmortem" ["n1"] .panicked] ∧
    destroyCount ((wrapDestroyFn ⟨true, true, false, ""⟩
        ⟨true, none, fun _ _ _ => (1, .panicked)⟩
        "t1" ["n1"] (fun _ _ => (2, .returned none)) DiskEnv.good
        ⟨7, ⟨["t1"], none⟩, []⟩).1.since ⟨7, ⟨["t1"], none⟩, []⟩) = 0 ∧
    (wrapDestroyFn ⟨true, true, false, ""⟩ ⟨true, none, fun _ _ _ => (1, .panicked)⟩
        "t1" ["n1"] (fun _ _ => (2, .returned none)) DiskEnv.good
        ⟨7, ⟨["t1"], none⟩, []⟩).2 = .returned none ∧
    ¬ (∀ (policy : ProvisionerPolicy) (c : TestContext) (tag : String) (nodes : List Node)
        (destroy : Context → Nat → Nat × CallOutcome) (d : DiskEnv) (w : World),
      destroyCount ((wrapDestroyFn policy c tag nodes destroy d w).1.since w) = 1 ↔
        (policy.DestroyOnSuccess = true ∧
          (c.Failed = false ∨ policy.DestroyOnFailure = true) ∧
          (Context.Err c.ctxDone .base w.now = none ∨ policy.DestroyOnFailure = true))) := by
  refine ⟨rfl, rfl, rfl, rfl, ?_⟩
  intro h
  have h1 := (h ⟨true, true, false, ""⟩ ⟨true, none, fun _ _ _ => (1, .panicked)⟩
    "t1" ["n1"] (fun _ _ => (2, .returned none)) DiskEnv.good ⟨7, ⟨["t1"], none⟩, []⟩).mpr
    ⟨rfl, Or.inr rfl, Or.inr rfl⟩
  have h0 : destroyCount ((wrapDestroyFn ⟨true, true, false, ""⟩
      ⟨true, none, fun _ _ _ => (1, .panicked)⟩
      "t1" ["n1"] (fun _ _ => (2, .returned none)) DiskEnv.good
      ⟨7, ⟨["t1"], none⟩, []⟩).1.since ⟨7, ⟨["t1"], none⟩, []⟩) = 0 := rfl
  exact absurd (h0.symm.trans h1) (by decide)

/-! ## The teardown closure: failing log collection -/

/-- The destroy block entered in two worlds that agree on clock and ledger, for two
test contexts with the same test outcome: the same calls are added, and clock, ledger
and result are the same. -/
theorem destroyBlock_congr (policy : ProvisionerPolicy) (c1 c2 : TestContext) (tag : String)
    (destroy : Context → Nat → Nat × CallOutcome) (d : DiskEnv) (ctx : Context)
    (w1 w2 : World) (hfailed : c1.Failed = c2.Failed) (hnow : w1.now = w2.now)
    (hledger : w1.ledger = w2.ledger) :
    ∃ (l : List Event) (n : Nat) (led : Ledger) (out : CallOutcome),
      recovered (destroyBlock policy c1 tag destroy d ctx w1) = (⟨n, led, w1.calls ++ l⟩, out) ∧
      recovered (destroyBlock policy c2 tag destroy d ctx w2)
        = (⟨n, led, w2.calls ++ l⟩, out) := by
  rcases w1 with ⟨now1, led1, calls1⟩
  rcases w2 with ⟨now2, led2, calls2⟩
  simp only at hnow hledger
  subst hnow hledger
  by_cases hgate : policy.DestroyOnSuccess = false ∨
      (c1.Failed = true ∧ policy.DestroyOnFailure = false)
  · refine ⟨[], now1, led1, .returned none, ?_, ?_⟩
    · rw [destroyBlock_closed policy c1 tag destroy d ctx _ hgate]
      simp [recovered]
    · rw [destroyBlock_closed policy c2 tag destroy d ctx _ (hfailed ▸ hgate)]
      simp [recovered]
  · have hgate2 : ¬ (policy.DestroyOnSuccess = false ∨
        (c2.Failed = true ∧ policy.DestroyOnFailure = false)) := hfailed ▸ hgate
    rcases hd : destroy ctx now1 with ⟨dt, ⟨_ | e⟩ | _⟩
    · refine ⟨[.destroy ctx (.returned none),
          .resourceDestroyed tag (resourceDestroyed policy d tag led1).2], now1 + dt,
        (resourceDestroyed policy d tag led1).1, .returned none, ?_, ?_⟩
      · rw [destroyBlock_done policy c1 tag destroy d ctx _ hgate dt hd]
        rfl
      · rw [destroyBlock_done policy c2 tag destroy d ctx _ hgate2 dt hd]
        rfl
    · refine ⟨[.destroy ctx (.returned (some e))], now1 + dt, led1,
        .returned (some (Error.wrap e)), ?_, ?_⟩
      · rw [destroyBlock_failed policy c1 tag destroy d ctx _ hgate dt e hd]
        rfl
      · rw [destroyBlock_failed policy c2 tag destroy d ctx _ hgate2 dt e hd]
        rfl
    · refine ⟨[.destroy ctx .panicked], now1 + dt, led1, .returned none, ?_, ?_⟩
      · rw [destroyBlock_panicked policy c1 tag destroy d ctx _ hgate dt hd]
        rfl
      · rw [destroyBlock_panicked policy c2 tag destroy d ctx _ hgate2 dt hd]
        rfl

/-- C15: two runs of the closure from the same world, under the same policy, test
outcome, run context and destroy, whose `CollectLogs` both return after the same time
but with any two results (an error in one run, nil in the other): the calls of destroy
are the same, with the same contexts and outcomes, so equally many; the closure
returns the same result; and ledger and clock end up the same. -/
theorem wrapDestroyFn_logs_error_irrelevant (policy : ProvisionerPolicy)
    (c1 c2 : TestContext) (tag : String) (nodes : List Node)
    (destroy : Context → Nat → Nat × CallOutcome) (d : DiskEnv) (w : World)
    (hfailed : c1.Failed = c2.Failed) (hdone : c1.ctxDone = c2.ctxDone)
    (hlogs : ∀ label ns t, ∃ dt e1 e2,
      c1.CollectLogs label ns t = (dt, .returned e1) ∧
      c2.CollectLogs label ns t = (dt, .returned e2)) :
    ((wrapDestroyFn policy c1 tag nodes destroy d w).1.since w).filter Event.isDestroy
      = ((wrapDestroyFn policy c2 tag nodes destroy d w).1.since w).filter Event.isDestroy ∧
    destroyCount ((wrapDestroyFn policy c1 tag nodes destroy d w).1.since w)
      = destroyCount ((wrapDestroyFn policy c2 tag nodes destroy d w).1.since w) ∧
    (wrapDestroyFn policy c1 tag nodes destroy d w).2
      = (wrapDestroyFn policy c2 tag nodes destroy d w).2 ∧
    (wrapDestroyFn policy c1 tag nodes destroy d w).1.ledger
      = (wrapDestroyFn policy c2 tag nodes destroy d w).1.ledger ∧
    (wrapDestroyFn policy c1 tag nodes destroy d w).1.now
      = (wrapDestroyFn policy c2 tag nodes destroy d w).1.now := by
  -- both runs end in the destroy block, entered after calls that are not destroy
  have hblock : ∀ (ctx : Context) (w1 w2 : World) (pre1 pre2 : List Event),
      w1.calls = w.calls ++ pre1 → w2.calls = w.calls ++ pre2 →
      pre1.filter Event.isDestroy = [] → pre2.filter Event.isDestroy = [] →
      w1.now = w2.now → w1.ledger = w2.ledger →
      wrapDestroyFn policy c1 tag nodes destroy d w
        = recovered (destroyBlock policy c1 tag destroy d ctx w1) →
      wrapDestroyFn policy c2 tag nodes destroy d w
        = recovered (destroyBlock policy c2 tag destroy d ctx w2) →
      ((wrapDestroyFn policy c1 tag nodes destroy d w).1.since w).filter Event.isDestroy
        = ((wrapDestroyFn policy c2 tag nodes destroy d w).1.since w).filter
            Event.isDestroy ∧
      destroyCount ((wrapDestroyFn policy c1 tag nodes destroy d w).1.since w)
        = destroyCount ((wrapDestroyFn policy c2 tag nodes destroy d w).1.since w) ∧
      (wrapDestroyFn policy c1 tag nodes destroy d w).2
        = (wrapDestroyFn policy c2 tag nodes destroy d w).2 ∧
      (wrapDestroyFn policy c1 tag nodes destroy d w).1.ledger
        = (wrapDestroyFn policy c2 tag nodes destroy d w).1.ledger ∧
      (wrapDestroyFn policy c1 tag nodes destroy d w).1.now
        = (wrapDestroyFn policy c2 tag nodes destroy d w).1.now := by
    intro ctx w1 w2 pre1 pre2 hc1 hc2 hp1 hp2 hnow hledger hr1 hr2
    obtain ⟨l, n, led, out, h1, h2⟩ :=
      destroyBlock_congr policy c1 c2 tag destroy d ctx w1 w2 hfailed hnow hledger
    rw [hr1, hr2, h1, h2]
    have hs1 : World.since ⟨n, led, w1.calls ++ l⟩ w = pre1 ++ l :=
      World.since_calls w _ _ (by simp [hc1])
    have hs2 : World.since ⟨n, led, w2.calls ++ l⟩ w = pre2 ++ l :=
      World.since_calls w _ _ (by simp [hc2])
    have hfilter : (pre1 ++ l).filter Event.isDestroy = (pre2 ++ l).filter Event.isDestroy := by
      rw [List.filter_append, List.filter_append, hp1, hp2]
    refine ⟨by rw [hs1, hs2]; exact hfilter, ?_, rfl, rfl, rfl⟩
    rw [hs1, hs2]
    simp only [destroyCount, List.countP_eq_length_filter, hfilter]
  cases hctx : Context.Err c1.ctxDone .base w.now with
  | some e =>
    have hctx2 : Context.Err c2.ctxDone .base w.now = some e := hdone ▸ hctx
    cases hpol : policy.DestroyOnFailure with
    | false =>
      rw [wrapDestroyFn_skipped policy c1 tag nodes destroy d w e hctx hpol,
        wrapDestroyFn_skipped policy c2 tag nodes destroy d w e hctx2 hpol]
      exact ⟨rfl, rfl, rfl, rfl, rfl⟩
    | true =>
      exact hblock _ w w [] [] (by simp) (by simp) rfl rfl rfl rfl
        (by rw [wrapDestroyFn_eq_recovered,
          wrapDestroyFnBody_interrupted policy c1 tag nodes destroy d w e hctx hpol])
        (by rw [wrapDestroyFn_eq_recovered,
          wrapDestroyFnBody_interrupted policy c2 tag nodes destroy d w e hctx2 hpol])
  | none =>
    have hctx2 : Context.Err c2.ctxDone .base w.now = none := hdone ▸ hctx
    by_cases hlog : c1.Failed = true ∨ policy.AlwaysCollectLogs = true
    · have hlog2 : c2.Failed = true ∨ policy.AlwaysCollectLogs = true := hfailed ▸ hlog
      obtain ⟨dt, e1, e2, hl1, hl2⟩ := hlogs "postmortem" nodes w.now
      exact hblock .base (w.after (.collectLogs "postmortem" nodes (.returned e1)) dt)
        (w.after (.collectLogs "postmortem" nodes (.returned e2)) dt)
        [.collectLogs "postmortem" nodes (.returned e1)]
        [.collectLogs "postmortem" nodes (.returned e2)]
        (by simp [World.after]) (by simp [World.after])
        (by simp [Event.isDestroy]) (by simp [Event.isDestroy]) rfl rfl
        (by rw [wrapDestroyFn_eq_recovered,
          wrapDestroyFnBody_live_logs policy c1 tag nodes destroy d w hctx hlog dt e1 hl1])
        (by rw [wrapDestroyFn_eq_recovered,
          wrapDestroyFnBody_live_logs policy c2 tag nodes destroy d w hctx2 hlog2 dt e2 hl2])
    · have hlog2 : ¬ (c2.Failed = true ∨ policy.AlwaysCollectLogs = true) := hfailed ▸ hlog
      exact hblock .base w w [] [] (by simp) (by simp) rfl rfl rfl rfl
        (by rw [wrapDestroyFn_eq_recovered,
          wrapDestroyFnBody_live_quiet policy c1 tag nodes destroy d w hctx hlog])
        (by rw [wrapDestroyFn_eq_recovered,
          wrapDestroyFnBody_live_quiet policy c2 tag nodes destroy d w hctx2 hlog2])

/-- C15 at a failed test on a live run: log collection returns an error in the first
run and nil in the second, and both runs call destroy once. -/
theorem wrapDestroyFn_logs_error_irrelevant_witness :
    destroyCount ((wrapDestroyFn ⟨true, true, false, ""⟩
        ⟨true, none, fun _ _ _ => (2, .returned (some (.external 9)))⟩ "t1" ["n1"]
        (fun _ _ => (3, .returned none)) DiskEnv.good ⟨7, ⟨["t1"], none⟩, []⟩).1.since
          ⟨7, ⟨["t1"], none⟩, []⟩)
      = destroyCount ((wrapDestroyFn ⟨true, true, false, ""⟩
        ⟨true, none, fun _ _ _ => (2, .returned none)⟩ "t1" ["n1"]
        (fun _ _ => (3, .returned none)) DiskEnv.good ⟨7, ⟨["t1"], none⟩, []⟩).1.since
          ⟨7, ⟨["t1"], none⟩, []⟩) ∧
    destroyCount ((wrapDestroyFn ⟨true, true, false, ""⟩
        ⟨true, none, fun _ _ _ => (2, .returned none)⟩ "t1" ["n1"]
        (fun _ _ => (3, .returned none)) DiskEnv.good ⟨7, ⟨["t1"], none⟩, []⟩).1.since
          ⟨7, ⟨["t1"], none⟩, []⟩) = 1 ∧
    (wrapDestroyFn ⟨true, true, false, ""⟩
        ⟨true, none, fun _ _ _ => (2, .returned (some (.external 9)))⟩ "t1" ["n1"]
        (fun _ _ => (3, .returned none)) DiskEnv.good ⟨7, ⟨["t1"], none⟩, []⟩).2
      = (wrapDestroyFn ⟨true, true, false, ""⟩
        ⟨true, none, fun _ _ _ => (2, .returned none)⟩ "t1" ["n1"]
        (fun _ _ => (3, .returned none)) DiskEnv.good ⟨7, ⟨["t1"], none⟩, []⟩).2 :=
  have h := wrapDestroyFn_logs_error_irrelevant ⟨true, true, false, ""⟩
    ⟨true, none, fun _ _ _ => (2, .returned (some (.external 9)))⟩
    ⟨true, none, fun _ _ _ => (2, .returned none)⟩ "t1" ["n1"]
    (fun _ _ => (3, .returned none)) DiskEnv.good ⟨7, ⟨["t1"], none⟩, []⟩ rfl rfl
    (fun _ _ _ => ⟨2, some (.external 9), none, rfl, rfl⟩)
  ⟨h.2.1, rfl, h.2.2.1⟩

/-! ## The ledger when the disk fails -/

/-- A write that fails among those still to come ends the loop with its error. -/
theorem fprintlnAll_writeFails (j : Nat) (e : Error) (keys : List String) (k : Nat)
    (content : List Nat) (pos : Nat) (hk : k ≤ j) (hj : j < k + keys.length) :
    (fprintlnAll (.writeFails j e) keys k content pos).2 = some (Error.system e) := by
  induction keys generalizing k content pos with
  | nil => simp at hj; omega
  | cons res rest ih =>
    unfold fprintlnAll
    by_cases hjk : j = k
    · simp [hjk, trace.ConvertSystemError]
    · simp only [hjk, if_false]
      apply ih
      · omega
      · simp only [List.length_cons] at hj
        omega

/-- Saving with a file configured reports a failing open, and a failing write
among the writes it makes. -/
theorem saveResourceAllocations_fails (policy : ProvisionerPolicy) (d : DiskEnv) (l : Ledger)
    (e : Error) (hfile : policy.ResourceListFile ≠ "")
    (hfault : d.fault = .openFails e ∨ ∃ k, d.fault = .writeFails k e ∧ k < l.tags.length) :
    (saveResourceAllocations policy d l).2 = some (Error.system e) := by
  unfold saveResourceAllocations
  rw [if_neg hfile]
  rcases hfault with h | ⟨k, h, hk⟩
  · rw [h]
    rfl
  · rw [h]
    have hlen : (d.order.keys l.tags).length = l.tags.length := (d.order.perm l.tags).length_eq
    exact fprintlnAll_writeFails k e _ 0 _ 0 (Nat.zero_le _) (by omega)

/-- C16: with a ledger file configured, when `os.OpenFile` fails or one of the writes
made fails with `e`, `resourceAllocated(tag)` for a tag not yet present (1) and
`resourceDestroyed(tag)` (2) return the converted error `e`, not nil, and the tags in
memory already hold the change: the tag appended, respectively removed.  The tags in
memory stay free of duplicates whatever the disk does (3).  Without a file path,
`saveResourceAllocations` does nothing and returns nil (4). -/
theorem ledger_persistence_failure (policy : ProvisionerPolicy) (d : DiskEnv) (tag : String)
    (l : Ledger) :
    (∀ e, policy.ResourceListFile ≠ "" → tag ∉ l.tags →
      (d.fault = .openFails e ∨
        ∃ k, d.fault = .writeFails k e ∧ k < (l.tags ++ [tag]).length) →
      (resourceAllocated policy d tag l).2 = some (Error.system e) ∧
      (resourceAllocated policy d tag l).1.tags = l.tags ++ [tag]) ∧
    (∀ e, policy.ResourceListFile ≠ "" →
      (d.fault = .openFails e ∨
        ∃ k, d.fault = .writeFails k e ∧ k < (l.tags.filter (fun t => t ≠ tag)).length) →
      (resourceDestroyed policy d tag l).2 = some (Error.system e) ∧
      (resourceDestroyed policy d tag l).1.tags = l.tags.filter (fun t => t ≠ tag) ∧
      tag ∉ (resourceDestroyed policy d tag l).1.tags) ∧
    (l.tags.Nodup → (resourceAllocated policy d tag l).1.tags.Nodup ∧
      (resourceDestroyed policy d tag l).1.tags.Nodup) ∧
    (policy.ResourceListFile = "" → saveResourceAllocations policy d l = (l, none)) := by
  refine ⟨?_, ?_, ?_, ?_⟩
  · intro e hfile hnew hfault
    have hr : resourceAllocated policy d tag l
        = saveResourceAllocations policy d { l with tags := l.tags ++ [tag] } := by
      simp [resourceAllocated, hnew]
    rw [hr, saveResourceAllocations_tags]
    exact ⟨saveResourceAllocations_fails policy d _ e hfile hfault, rfl⟩
  · intro e hfile hfault
    refine ⟨?_, resourceDestroyed_tags policy d tag l, ?_⟩
    · exact saveResourceAllocations_fails policy d _ e hfile hfault
    · rw [resourceDestroyed_tags]
      simp
  · intro hnodup
    refine ⟨?_, ?_⟩
    · by_cases hmem : tag ∈ l.tags
      · simpa [resourceAllocated, hmem] using hnodup
      · have hr : resourceAllocated policy d tag l
            = saveResourceAllocations policy d { l with tags := l.tags ++ [tag] } := by
          simp [resourceAllocated, hmem]
        rw [hr, saveResourceAllocations_tags]
        exact List.Nodup.append hnodup (List.nodup_singleton tag) (by simpa using hmem)
    · rw [resourceDestroyed_tags]
      exact hnodup.filter _
  · intro hfile
    simp [saveResourceAllocations, hfile]

/-! ## The order of ledger calls -/

/-- After `resourceAllocated(tag)` the tag is in the ledger in memory, however the
call ended. -/
theorem resourceAllocated_mem (policy : ProvisionerPolicy) (d : DiskEnv) (tag : String)
    (l : Ledger) : tag ∈ (resourceAllocated policy d tag l).1.tags := by
  by_cases hmem : tag ∈ l.tags
  · simp [resourceAllocated, hmem]
  · have hr : resourceAllocated policy d tag l
        = saveResourceAllocations policy d { l with tags := l.tags ++ [tag] } := by
      simp [resourceAllocated, hmem]
    rw [hr, saveResourceAllocations_tags]
    simp

/-- C13: in every run of `runTerraform`, if the run returns a nil error then
`resourceAllocated(tag)` is called exactly once, as the last call and right after a
`Create` that returned nil, and the tag is in the ledger afterwards; if the run returns
an error, `resourceAllocated` is not called and the ledger is unchanged (1).  In every
run of the teardown closure, either `resourceDestroyed` is not called and the ledger is
unchanged, or it is called exactly once, as the last call and right after a destroy
that returned nil (2). -/
theorem ledger_calls_follow_success (policy : ProvisionerPolicy) (tag : String) (w : World) :
    (∀ env : TerraformEnv,
      ((runTerraform policy env tag w).2.err = none →
        resourceAllocatedCount ((runTerraform policy env tag w).1.since w) = 1 ∧
        (∃ pre ctx res, (runTerraform policy env tag w).1.since w
            = pre ++ [.create ctx none, .resourceAllocated tag res] ∧
          resourceAllocatedCount pre = 0) ∧
        tag ∈ (runTerraform policy env tag w).1.ledger.tags) ∧
      ((runTerraform policy env tag w).2.err ≠ none →
        resourceAllocatedCount ((runTerraform policy env tag w).1.since w) = 0 ∧
        (runTerraform policy env tag w).1.ledger = w.ledger)) ∧
    (∀ (c : TestContext) (nodes : List Node) (destroy : Context → Nat → Nat × CallOutcome)
        (d : DiskEnv),
      (resourceDestroyedCount ((wrapDestroyFn policy c tag nodes destroy d w).1.since w) = 0 ∧
        (wrapDestroyFn policy c tag nodes destroy d w).1.ledger = w.ledger) ∨
      (resourceDestroyedCount ((wrapDestroyFn policy c tag nodes destroy d w).1.since w) = 1 ∧
        ∃ pre ctx res, (wrapDestroyFn policy c tag nodes destroy d w).1.since w
            = pre ++ [.destroy ctx (.returned none), .resourceDestroyed tag res] ∧
          resourceDestroyedCount pre = 0)) := by
  refine ⟨?_, ?_⟩
  · intro env
    cases hnew : env.New with
    | error e =>
      have hr : runTerraform policy env tag w = (w, ⟨none, none, trace.Wrap (some e)⟩) := by
        simp [runTerraform, hnew]
      rw [hr]
      refine ⟨fun h => ?_, fun _ => ⟨?_, rfl⟩⟩
      · simp [trace.Wrap] at h
      · simp [World.since_self, resourceAllocatedCount]
    | ok p =>
      rw [runTerraform_ok policy env p tag w hnew]
      obtain ⟨l, hcalls, _, hcase⟩ :=
        runTerraformLoop_shape policy env p tag [Minute * 15, Minute * 10] 0 none w
          (fun h => by cases h)
      rw [World.since_calls w _ l hcalls]
      rcases hcase with ⟨herr, ⟨pre, ctx, hl, hpre⟩, hledger, _, _⟩ | ⟨herr, hzero, hledger, _, _⟩
      · refine ⟨fun _ => ⟨?_, ⟨pre, ctx, _, hl, hpre⟩, ?_⟩, fun h => absurd herr h⟩
        · simp only [resourceAllocatedCount] at hpre
          simp [hl, resourceAllocatedCount, List.countP_append, List.countP_cons,
            Event.isResourceAllocated, hpre]
        · rw [hledger]
          exact resourceAllocated_mem policy env.disk tag w.ledger
      · exact ⟨fun h => absurd h herr, fun _ => ⟨hzero, hledger⟩⟩
  · intro c nodes destroy d
    have hblock : ∀ (ctx : Context) (w1 : World) (pre0 : List Event),
        w1.calls = w.calls ++ pre0 → resourceDestroyedCount pre0 = 0 →
        w1.ledger = w.ledger →
        (resourceDestroyedCount
            ((recovered (destroyBlock policy c tag destroy d ctx w1)).1.since w) = 0 ∧
          (recovered (destroyBlock policy c tag destroy d ctx w1)).1.ledger = w.ledger) ∨
        (resourceDestroyedCount
            ((recovered (destroyBlock policy c tag destroy d ctx w1)).1.since w) = 1 ∧
          ∃ pre ctx1 res, (recovered (destroyBlock policy c tag destroy d ctx w1)).1.since w
              = pre ++ [.destroy ctx1 (.returned none), .resourceDestroyed tag res] ∧
            resourceDestroyedCount pre = 0) := by
      intro ctx w1 pre0 hcalls hpre hledger
      simp only [resourceDestroyedCount] at hpre
      refine recovered_destroyBlock_cases policy c tag destroy d ctx w1
        (fun r => (resourceDestroyedCount (r.1.since w) = 0 ∧ r.1.ledger = w.ledger) ∨
          (resourceDestroyedCount (r.1.since w) = 1 ∧
            ∃ pre ctx1 res, r.1.since w
                = pre ++ [.destroy ctx1 (.returned none), .resourceDestroyed tag res] ∧
              resourceDestroyedCount pre = 0)) ?_ ?_ ?_ ?_
      · intro _
        exact Or.inl ⟨by simp [World.since, hcalls, resourceDestroyedCount, hpre], hledger⟩
      · intro _ dt _
        exact Or.inl ⟨by simp [World.since, World.after, hcalls, resourceDestroyedCount,
          List.countP_append, hpre, Event.isResourceDestroyed], hledger⟩
      · intro _ dt e _
        exact Or.inl ⟨by simp [World.since, World.after, hcalls, resourceDestroyedCount,
          List.countP_append, hpre, Event.isResourceDestroyed], hledger⟩
      · intro _ dt _
        refine Or.inr ⟨by simp [World.since, hcalls, resourceDestroyedCount,
          List.countP_append, List.countP_cons, hpre, Event.isResourceDestroyed],
          pre0, ctx, (resourceDestroyed policy d tag w1.ledger).2,
          by simp [World.since, hcalls], by simp [resourceDestroyedCount, hpre]⟩
    refine wrapDestroyFn_cases policy c tag nodes destroy d w
      (fun r => (resourceDestroyedCount (r.1.since w) = 0 ∧ r.1.ledger = w.ledger) ∨
        (resourceDestroyedCount (r.1.since w) = 1 ∧
          ∃ pre ctx1 res, r.1.since w
              = pre ++ [.destroy ctx1 (.returned none), .resourceDestroyed tag res] ∧
            resourceDestroyedCount pre = 0)) ?_ ?_ ?_ ?_ ?_
    · intro e _ _
      exact Or.inl ⟨by simp [World.since_self, resourceDestroyedCount], rfl⟩
    · intro e _ _
      exact hblock _ w [] (by simp) (by simp [resourceDestroyedCount]) rfl
    · intro _ _
      exact hblock _ w [] (by simp) (by simp [resourceDestroyedCount]) rfl
    · intro _ _ dt err _
      exact hblock .base (w.after (.collectLogs "postmortem" nodes (.returned err)) dt)
        [.collectLogs "postmortem" nodes (.returned err)]
        (by simp [World.after])
        (by simp [resourceDestroyedCount, Event.isResourceDestroyed]) rfl
    · intro _ _ dt _
      exact Or.inl ⟨by simp [World.since, World.after, resourceDestroyedCount,
        Event.isResourceDestroyed], rfl⟩

/-! ## Concrete runs -/

/-- C12 at a run whose two attempts fail after a minute each and whose `Destroy` fails
too: two calls of `Create`, one of `Destroy` with the outer context, and the aggregate
of the second creation error and the destroy error. -/
theorem runTerraform_attempts_exhausted_witness :
    createCount ((runTerraform ⟨true, true, false, ""⟩
        ⟨.ok ⟨fun i _ _ => (Minute, some (.external (i + 1))),
          fun _ _ => (Minute, some (.external 3)), ["n1"]⟩, none, DiskEnv.good⟩
        "t1" ⟨0, ⟨[], none⟩, []⟩).1.since ⟨0, ⟨[], none⟩, []⟩) = 2 ∧
    (runTerraform ⟨true, true, false, ""⟩
        ⟨.ok ⟨fun i _ _ => (Minute, some (.external (i + 1))),
          fun _ _ => (Minute, some (.external 3)), ["n1"]⟩, none, DiskEnv.good⟩
        "t1" ⟨0, ⟨[], none⟩, []⟩).1.since ⟨0, ⟨[], none⟩, []⟩
      = [.create (.deadline .base (Minute * 15)) (some (.external 1)),
          .create (.deadline .base (Minute + Minute * 10)) (some (.external 2)),
          .destroy .base (.returned (some (.external 3)))] ∧
    (runTerraform ⟨true, true, false, ""⟩
        ⟨.ok ⟨fun i _ _ => (Minute, some (.external (i + 1))),
          fun _ _ => (Minute, some (.external 3)), ["n1"]⟩, none, DiskEnv.good⟩
        "t1" ⟨0, ⟨[], none⟩, []⟩).2.err
      = some (.aggregate [.external 2, .external 3]) :=
  have h := (runTerraform_attempts_exhausted ⟨true, true, false, ""⟩
    ⟨.ok ⟨fun i _ _ => (Minute, some (.external (i + 1))),
      fun _ _ => (Minute, some (.external 3)), ["n1"]⟩, none, DiskEnv.good⟩
    "t1" ⟨0, ⟨[], none⟩, []⟩).2
    ⟨fun i _ _ => (Minute, some (.external (i + 1))),
      fun _ _ => (Minute, some (.external 3)), ["n1"]⟩
    Minute (.external 1) Minute (.external 2) rfl rfl rfl rfl rfl
  ⟨h.2.1, h.1, h.2.2.2.2.2.2.2⟩

/-- C13 at a run whose first attempt succeeds for a tag not yet in the ledger:
`resourceAllocated` is called once and the tag `t1` is in the ledger. -/
theorem ledger_calls_follow_success_witness :
    (runTerraform ⟨true, true, false, ""⟩
        ⟨.ok ⟨fun _ _ _ => (Minute, none), fun _ _ => (Minute, none), ["n1"]⟩, none,
          DiskEnv.good⟩
        "t1" ⟨0, ⟨[], none⟩, []⟩).2.err = none ∧
    resourceAllocatedCount ((runTerraform ⟨true, true, false, ""⟩
        ⟨.ok ⟨fun _ _ _ => (Minute, none), fun _ _ => (Minute, none), ["n1"]⟩, none,
          DiskEnv.good⟩
        "t1" ⟨0, ⟨[], none⟩, []⟩).1.since ⟨0, ⟨[], none⟩, []⟩) = 1 ∧
    "t1" ∈ (runTerraform ⟨true, true, false, ""⟩
        ⟨.ok ⟨fun _ _ _ => (Minute, none), fun _ _ => (Minute, none), ["n1"]⟩, none,
          DiskEnv.good⟩
        "t1" ⟨0, ⟨[], none⟩, []⟩).1.ledger.tags :=
  have h := ((ledger_calls_follow_success ⟨true, true, false, ""⟩ "t1"
    ⟨0, ⟨[], none⟩, []⟩).1
    ⟨.ok ⟨fun _ _ _ => (Minute, none), fun _ _ => (Minute, none), ["n1"]⟩, none,
      DiskEnv.good⟩).1 rfl
  ⟨rfl, h.1, h.2.2⟩

/-- C16 at a ledger holding `a` and a disk on which `os.OpenFile` fails:
`resourceAllocated("b")` returns the converted error and the tags are `a`, `b`. -/
theorem ledger_persistence_failure_witness :
    (resourceAllocated ⟨true, true, false, "tags.txt"⟩
        ⟨.openFails (.external 5), RangeOrder.stored⟩ "b" ⟨["a"], none⟩).2
      = some (.system (.external 5)) ∧
    (resourceAllocated ⟨true, true, false, "tags.txt"⟩
        ⟨.openFails (.external 5), RangeOrder.stored⟩ "b" ⟨["a"], none⟩).1.tags
      = ["a", "b"] :=
  (ledger_persistence_failure ⟨true, true, false, "tags.txt"⟩
    ⟨.openFails (.external 5), RangeOrder.stored⟩ "b" ⟨["a"], none⟩).1 (.external 5)
    (by decide) (by decide) (Or.inl rfl)

/-- C17 at a failed test on a cancelled run with both destroy flags set: destroy is
called once. -/
theorem wrapDestroyFn_destroy_iff_witness :
    Context.Err (some (3, .canceled)) .base 7 = some .canceled ∧
    destroyCount ((wrapDestroyFn ⟨true, true, false, ""⟩
        ⟨true, some (3, .canceled), fun _ _ _ => (1, .returned none)⟩ "t1" ["n1"]
        (fun _ _ => (2, .returned none)) DiskEnv.good ⟨7, ⟨["t1"], none⟩, []⟩).1.since
          ⟨7, ⟨["t1"], none⟩, []⟩) = 1 :=
  ⟨rfl, (wrapDestroyFn_destroy_iff ⟨true, true, false, ""⟩
    ⟨true, some (3, .canceled), fun _ _ _ => (1, .returned none)⟩ "t1" ["n1"]
    (fun _ _ => (2, .returned none)) DiskEnv.good ⟨7, ⟨["t1"], none⟩, []⟩).2.2.2.1
    rfl (Or.inr rfl) (Or.inr rfl) (fun _ _ h => CallOutcome.noConfusion h)⟩

end Robotest
